import Mathlib

/-!
Verification development for the Hearstconnect simulation engine
(backend/engine of the repository), shallowly embedded in Lean 4.

Conventions of the embedding:
* Python floats are modelled as exact rationals (`ℚ`); the claims checked
  here are about control flow, comparisons and exact algebraic relations,
  which the rational model captures.  Decimal constants of the source are
  written as the equal fractions (for instance `30.44` is `761/25`),
  because `Rat.ofScientific` literals are irreducible and would block
  concrete evaluation; each such constant carries the decimal in a comment.
* Python's `round(x, n)` (banker's rounding, round-half-to-even) is
  modelled by `pyRound` below, applied to the exact rational value.
* Python month counters and list indices are `ℕ`; Python `int` values that
  can meaningfully be negative are `ℤ`.
* `"YYYY-MM"` date strings are modelled by the natural number
  `year * 100 + month`; for fixed-width zero-padded date strings the
  lexicographic string order used by the Python code coincides with the
  numeric order of this key.
* Python dictionaries with statically known keys become structures; lists
  of dictionaries become lists of structures.  The f-string reason/flag
  messages are kept as constant strings, with the interpolated numbers
  elided (only membership and emptiness of these lists matter here).
-/

/-- Round-half-to-even on an exact rational, giving the nearest integer
(the tie-breaking rule of Python's built-in `round`). -/
def bankersRound (q : ℚ) : ℤ :=
  let f : ℤ := ⌊q⌋
  let r : ℚ := q - (f : ℚ)
  if r < 1/2 then f
  else if 1/2 < r then f + 1
  else if f % 2 = 0 then f else f + 1

/-- Model of Python's `round(x, n)` on the exact rational value `x`. -/
def pyRound (x : ℚ) (n : ℕ) : ℚ :=
  ((bankersRound (x * (10 : ℚ) ^ n) : ℚ)) / (10 : ℚ) ^ n

theorem pyRound_zero (n : ℕ) : pyRound 0 n = 0 := by
  unfold pyRound bankersRound
  norm_num

/-! ## backend/engine/network.py -/

/-- Embedding of `HALVING_SCHEDULE` from `network.py`: the `"YYYY-MM"` keys
are encoded as `year * 100 + month`, and the subsidies 3.125, 1.5625,
0.78125, 0.390625 as the equal fractions. -/
def HALVING_SCHEDULE : List (ℕ × ℚ) :=
  [(202404, 25/8), (202804, 25/16), (203204, 25/32), (203604, 25/64)]

/-- Calendar key of month `monthIndex` counted from `(startYear, startMonth)`:
the inline computation of `current_year`, `current_month` and
`current_date_str` in `get_subsidy_for_month`, with the date string encoded
as `year * 100 + month`. -/
def calendar_key (startYear startMonth monthIndex : ℕ) : ℕ :=
  let currentYear := startYear + (startMonth - 1 + monthIndex) / 12
  let currentMonth := (startMonth - 1 + monthIndex) % 12 + 1
  currentYear * 100 + currentMonth

/-- Embedding of `get_subsidy_for_month` from `network.py`.  The Python
loop `for halving_date, new_subsidy in HALVING_SCHEDULE: if current >=
halving_date: subsidy = new_subsidy` is the fold below; string comparison
on `"YYYY-MM"` is numeric comparison of the calendar key; `3.125` is
`25/8`. -/
def get_subsidy_for_month (startYear startMonth : ℕ) (monthIndex : ℕ)
    (halvingEnabled : Bool) : ℚ :=
  if halvingEnabled = false then 25/8
  else
    let key := calendar_key startYear startMonth monthIndex
    HALVING_SCHEDULE.foldl
      (fun subsidy entry => if entry.1 ≤ key then entry.2 else subsidy) (25/8)

/-! ## Decision classifier (`_make_decision` in product_waterfall.py) -/

/-- Embedding of `_make_decision` from `product_waterfall.py`; the
thresholds `0.2` and `0.1` are `1/5` and `1/10`.  The human-readable reason
strings are kept, with the numeric interpolations of the Python f-strings
elided. -/
def make_decision (red_months total_months : ℕ) (health : ℚ) :
    String × List String :=
  if (red_months : ℚ) > (total_months : ℚ) * (1/5) then
    ("BLOCKED", ["Too many deficit months"])
  else if health < 50 then
    ("ADJUST", ["Health score below target"])
  else if (red_months : ℚ) > (total_months : ℚ) * (1/10) then
    ("ADJUST", ["Elevated deficit months"])
  else
    ("APPROVED", ["All metrics within acceptable ranges"])

/-- C3: the decision is `BLOCKED` iff the RED-month count exceeds 20% of the
total months (the threshold `1/5`); otherwise it is `ADJUST` when final
health is below 50 or RED months exceed 10% (`1/10`); otherwise `APPROVED`;
with 3 RED months out of 12 the decision is `BLOCKED`; and the returned
reasons list is never empty. -/
theorem make_decision_classifier (R T : ℕ) (H : ℚ) :
    ((make_decision R T H).1 = "BLOCKED" ↔ (R : ℚ) > (T : ℚ) * (1/5))
    ∧ (¬ ((R : ℚ) > (T : ℚ) * (1/5)) → (H < 50 ∨ (R : ℚ) > (T : ℚ) * (1/10)) →
        (make_decision R T H).1 = "ADJUST")
    ∧ (¬ ((R : ℚ) > (T : ℚ) * (1/5)) → ¬ (H < 50 ∨ (R : ℚ) > (T : ℚ) * (1/10)) →
        (make_decision R T H).1 = "APPROVED")
    ∧ (make_decision 3 12 H).1 = "BLOCKED"
    ∧ (make_decision R T H).2 ≠ [] := by
  constructor
  · constructor
    · intro h
      by_contra hc
      push_neg at hc
      unfold make_decision at h
      rw [if_neg (not_lt.mpr hc)] at h
      split at h
      · exact absurd h (by decide)
      · split at h
        · exact absurd h (by decide)
        · exact absurd h (by decide)
    · intro h
      unfold make_decision
      rw [if_pos h]
  · refine ⟨?_, ?_, ?_, ?_⟩
    · intro h1 h2
      unfold make_decision
      rw [if_neg h1]
      rcases h2 with h2 | h2
      · rw [if_pos h2]
      · by_cases hh : H < 50
        · rw [if_pos hh]
        · rw [if_neg hh, if_pos h2]
    · intro h1 h2
      push_neg at h2
      unfold make_decision
      rw [if_neg h1, if_neg (not_lt.mpr h2.1), if_neg (not_lt.mpr h2.2)]
    · unfold make_decision
      rw [if_pos (by norm_num)]
    · unfold make_decision
      split
      · simp
      · split
        · simp
        · split <;> simp

/-- Witness for C3: concrete instantiations of `make_decision_classifier`,
with every hypothesis discharged on concrete inputs. -/
theorem make_decision_classifier_witness :
    (make_decision 3 12 (100 : ℚ)).1 = "BLOCKED"
    ∧ (make_decision 0 12 (100 : ℚ)).1 = "APPROVED"
    ∧ (make_decision 2 12 (100 : ℚ)).1 = "ADJUST"
    ∧ (make_decision 0 12 (100 : ℚ)).2 ≠ [] := by
  refine ⟨(make_decision_classifier 3 12 100).2.2.2.1, ?_, ?_,
    (make_decision_classifier 0 12 100).2.2.2.2⟩
  · exact (make_decision_classifier 0 12 100).2.2.1 (by norm_num)
      (by push_neg; constructor <;> norm_num)
  · exact (make_decision_classifier 2 12 100).2.1 (by norm_num)
      (Or.inr (by norm_num))

/-- C6: holding total months and health fixed, increasing the RED-month
count never moves the decision from `BLOCKED` to `APPROVED`. -/
theorem make_decision_red_monotone (T : ℕ) (H : ℚ) (r r' : ℕ)
    (hT : 0 < T) (hrr : r ≤ r') (hr'T : r' ≤ T)
    (hB : (make_decision r T H).1 = "BLOCKED") :
    (make_decision r' T H).1 ≠ "APPROVED" := by
  have hne : 0 < T ∧ r' ≤ T := ⟨hT, hr'T⟩
  have hgt : (r : ℚ) > (T : ℚ) * (1/5) :=
    (make_decision_classifier r T H).1.mp hB
  have hgt' : (r' : ℚ) > (T : ℚ) * (1/5) :=
    lt_of_lt_of_le hgt (by exact_mod_cast hrr)
  have hB' : (make_decision r' T H).1 = "BLOCKED" :=
    (make_decision_classifier r' T H).1.mpr hgt'
  rw [hB']
  intro hc
  exact absurd hc (by decide)

unseal Rat.mul Rat.add Rat.sub Rat.inv in
/-- Witness for C6: a concrete application with all hypotheses discharged. -/
theorem make_decision_red_monotone_witness :
    (make_decision 4 12 (100 : ℚ)).1 ≠ "APPROVED" :=
  make_decision_red_monotone 12 100 3 4 (by norm_num) (by norm_num)
    (by norm_num) (by decide)

unseal Rat.mul Rat.add Rat.sub Rat.inv in
/-- C5 counterexample: from start date `"2025-01"` with halving enabled,
month 87 has calendar date 2032-04, which is at-or-after 2028-04, yet the
subsidy returned is 0.78125 (`25/32`), not 1.5625 (`25/16`) as the claim
states. -/
theorem subsidy_counterexample :
    202804 ≤ calendar_key 2025 1 87
    ∧ get_subsidy_for_month 2025 1 87 true = 0.78125
    ∧ get_subsidy_for_month 2025 1 87 true ≠ 1.5625 := by
  refine ⟨by decide, ?_, ?_⟩
  · have h : get_subsidy_for_month 2025 1 87 true = 25/32 := by decide
    rw [h]; norm_num
  · have h : get_subsidy_for_month 2025 1 87 true = 25/32 := by decide
    rw [h]; norm_num

/-- C5 amended: from start date `"2025-01"` with halving enabled, the
subsidy is 3.125 for every month whose calendar date lies in
[2024-04, 2028-04), 1.5625 for calendar dates in [2028-04, 2032-04), and in
general the value of the last halving-schedule entry whose date is at or
before the calendar month (0.78125 in [2032-04, 2036-04), 0.390625 from
2036-04 on). -/
theorem subsidy_halving_schedule (m : ℕ) :
    (202404 ≤ calendar_key 2025 1 m → calendar_key 2025 1 m < 202804 →
      get_subsidy_for_month 2025 1 m true = 3.125)
    ∧ (202804 ≤ calendar_key 2025 1 m → calendar_key 2025 1 m < 203204 →
      get_subsidy_for_month 2025 1 m true = 1.5625)
    ∧ (203204 ≤ calendar_key 2025 1 m → calendar_key 2025 1 m < 203604 →
      get_subsidy_for_month 2025 1 m true = 0.78125)
    ∧ (203604 ≤ calendar_key 2025 1 m →
      get_subsidy_for_month 2025 1 m true = 0.390625) := by
  unfold get_subsidy_for_month HALVING_SCHEDULE
  simp only [List.foldl, Bool.true_eq_false, if_false]
  refine ⟨?_, ?_, ?_, ?_⟩
  · intro h1 h2
    rw [if_pos h1, if_neg (by omega), if_neg (by omega), if_neg (by omega)]
    norm_num
  · intro h1 h2
    rw [if_pos h1, if_neg (by omega), if_neg (by omega)]
    norm_num
  · intro h1 h2
    rw [if_pos h1, if_neg (by omega)]
    norm_num
  · intro h1
    rw [if_pos h1]
    norm_num

/-- Witness for C5 (amended): concrete months in each regime, with the
hypotheses of `subsidy_halving_schedule` discharged by evaluation. -/
theorem subsidy_halving_schedule_witness :
    get_subsidy_for_month 2025 1 0 true = 3.125
    ∧ get_subsidy_for_month 2025 1 39 true = 1.5625
    ∧ get_subsidy_for_month 2025 1 87 true = 0.78125
    ∧ get_subsidy_for_month 2025 1 135 true = 0.390625 :=
  ⟨(subsidy_halving_schedule 0).1 (by decide) (by decide),
   (subsidy_halving_schedule 39).2.1 (by decide) (by decide),
   (subsidy_halving_schedule 87).2.2.1 (by decide) (by decide),
   (subsidy_halving_schedule 135).2.2.2 (by decide)⟩

/-! ## backend/engine/product_waterfall.py — simulate_product_3y -/

/-- `DAYS_PER_MONTH = 30.44` written as the fraction `761/25`. -/
def DAYS_PER_MONTH : ℚ := 761/25

/-- One entry of the take-profit ladder passed to `simulate_product_3y`:
a `{price_trigger, sell_pct}` dict.  The API schema (`schemas.py`) always
serializes both keys, so the `dict.get` defaults of the source are not
modelled. -/
structure TakeProfitEntry where
  price_trigger : ℚ
  sell_pct : ℚ
deriving DecidableEq

/-- Parameters of `simulate_product_3y` (`miner_lifetime_months` is accepted
by the Python signature but never read in the body; it is kept here for
fidelity). -/
structure WaterfallParams where
  miner_hashrate_th : ℚ
  miner_power_w : ℚ
  miner_count : ℤ
  miner_lifetime_months : ℤ
  miner_maintenance_pct : ℚ
  electricity_rate : ℚ
  hosting_fee_per_kw_month : ℚ
  uptime : ℚ
  curtailment_pct : ℚ
  capital_raised_usd : ℚ
  product_tenor_months : ℕ
  base_yield_apr : ℚ
  bonus_yield_apr : ℚ
  holding_sell_month : Option ℕ
  calibration_uptime_factor : ℚ
  calibration_production_adj : ℚ
  take_profit_ladder : List TakeProfitEntry
deriving DecidableEq

/-- The `effective_uptime` local of `simulate_product_3y`. -/
def wf_effective_uptime (p : WaterfallParams) : ℚ :=
  p.uptime * p.calibration_uptime_factor * (1 - p.curtailment_pct)

/-- The `fleet_hashrate_th` local of `simulate_product_3y`. -/
def wf_fleet_hashrate_th (p : WaterfallParams) : ℚ :=
  p.miner_hashrate_th * (p.miner_count : ℚ)

/-- The `fleet_power_kw` local of `simulate_product_3y`. -/
def wf_fleet_power_kw (p : WaterfallParams) : ℚ :=
  p.miner_power_w * (p.miner_count : ℚ) / 1000

/-- The month's `btc_produced` (production step 1, calibration applied). -/
def wf_btc_produced (p : WaterfallParams) (hashprice : ℚ) : ℚ :=
  hashprice * (wf_fleet_hashrate_th p / 1000) * DAYS_PER_MONTH
    * wf_effective_uptime p * p.calibration_production_adj

/-- The month's `total_opex_usd` (step 2: electricity + hosting fee +
maintenance, the latter a percentage of the mined BTC's spot value). -/
def wf_total_opex_usd (p : WaterfallParams) (spot hashprice : ℚ) : ℚ :=
  (wf_fleet_power_kw p * 24 * DAYS_PER_MONTH * wf_effective_uptime p)
      * p.electricity_rate
    + wf_fleet_power_kw p * p.hosting_fee_per_kw_month
    + wf_btc_produced p hashprice * spot * p.miner_maintenance_pct

/-- The month's `btc_for_opex` (step 3), with the zero-spot guard. -/
def wf_btc_for_opex (p : WaterfallParams) (spot hashprice : ℚ) : ℚ :=
  if 0 < spot then wf_total_opex_usd p spot hashprice / spot else 0

/-- The active yield APR of month `t`: `base + bonus` once
`holding_sell_month` exists and `t >= holding_sell_month`, else `base`
(computed twice in the source, for the payout and for
`yield_apr_applied`). -/
def wf_current_apr (p : WaterfallParams) (t : ℕ) : ℚ :=
  match p.holding_sell_month with
  | some hsm => if hsm ≤ t then p.base_yield_apr + p.bonus_yield_apr
                else p.base_yield_apr
  | none => p.base_yield_apr

/-- Embedding of `_compute_health_score`; the decimal thresholds 1.2, 0.2,
1.5, 0.3, 0.5 are the fractions 6/5, 1/5, 3/2, 3/10, 1/2. -/
def compute_health_score (opex_coverage_ratio yield_fulfillment : ℚ)
    (flag : String) : ℚ :=
  let score : ℚ := 100
  let score :=
    if opex_coverage_ratio < 1 then score - 50
    else if opex_coverage_ratio < 6/5 then
      score - 30 * (6/5 - opex_coverage_ratio) / (1/5)
    else if opex_coverage_ratio < 3/2 then
      score - 10 * (3/2 - opex_coverage_ratio) / (3/10)
    else score
  let score :=
    if yield_fulfillment < 1/2 then score - 30 * (1 - yield_fulfillment / (1/2))
    else if yield_fulfillment < 1 then score - 15 * (1 - yield_fulfillment)
    else score
  let score := if flag = "RED" then score - 20 else score
  max 0 (min 100 score)

/-- The take-profit ladder loop of `simulate_product_3y` (step 7): each
entry whose trigger the spot price reaches sells `sell_pct` of the current
capitalization pool; there is no `triggered` latch in this loop.  Arguments
after the ladder are the running `take_profit_sold_usd`,
`capitalization_btc` and `total_btc_sold`. -/
def run_take_profit (spot : ℚ) :
    List TakeProfitEntry → ℚ → ℚ → ℚ → ℚ × ℚ × ℚ
  | [], tps_usd, cap_btc, sold_btc => (tps_usd, cap_btc, sold_btc)
  | tp :: rest, tps_usd, cap_btc, sold_btc =>
    if tp.price_trigger ≤ spot ∧ 0 < cap_btc then
      let sell_btc := cap_btc * tp.sell_pct
      run_take_profit spot rest (tps_usd + sell_btc * spot)
        (cap_btc - sell_btc) (sold_btc + sell_btc)
    else
      run_take_profit spot rest tps_usd cap_btc sold_btc

/-- The mutable simulation state of `simulate_product_3y` carried between
months (`capitalization_usd` is the mark-to-market value recomputed at the
end of each month). -/
structure WaterfallState where
  capitalization_btc : ℚ
  capitalization_usd : ℚ
  cumulative_yield_paid : ℚ
  total_btc_produced : ℚ
  total_btc_sold : ℚ
  red_flag_months : ℕ
deriving DecidableEq, Inhabited

/-- Initial state of `simulate_product_3y` (all accumulators zero). -/
def waterfallInitState : WaterfallState :=
  { capitalization_btc := 0, capitalization_usd := 0,
    cumulative_yield_paid := 0, total_btc_produced := 0,
    total_btc_sold := 0, red_flag_months := 0 }

/-- Outcome of the deficit-check branch (steps 4-6): the values of the
locals `month_flag`, `yield_paid_usd`, `btc_for_yield`, `btc_remaining`,
`capitalization_btc`, `total_btc_sold`, `red_flag_months` at the end of the
if/else. -/
structure WaterfallBranch where
  month_flag : String
  yield_paid_usd : ℚ
  btc_for_yield : ℚ
  btc_remaining : ℚ
  capitalization_btc : ℚ
  total_btc_sold : ℚ
  red_flag_months : ℕ

/-- Raw trace of one iteration of the month loop of `simulate_product_3y`:
the loop body's local variables (pre-rounding) and the state at the end of
the month. -/
structure WaterfallMonth where
  month : ℕ
  spot_price : ℚ
  hashprice : ℚ
  btc_produced : ℚ
  total_opex_usd : ℚ
  btc_for_opex : ℚ
  btc_sell_opex : ℚ
  opex_coverage_ratio : ℚ
  month_flag : String
  yield_paid_usd : ℚ
  btc_for_yield : ℚ
  btc_remaining : ℚ
  take_profit_sold_usd : ℚ
  yield_fulfillment : ℚ
  yield_apr_applied : ℚ
  health_score : ℚ
  state : WaterfallState
deriving DecidableEq, Inhabited

/-- One iteration of the month loop of `simulate_product_3y` (steps 1-8 of
the waterfall), from the state at the start of month `t`. -/
def waterfall_month (p : WaterfallParams) (t : ℕ) (spot_price hashprice : ℚ)
    (st : WaterfallState) : WaterfallMonth :=
  -- 1) BTC production (calibration applied)
  let btc_produced := wf_btc_produced p hashprice
  let total_btc_produced := st.total_btc_produced + btc_produced
  -- 2) OPEX
  let total_opex_usd := wf_total_opex_usd p spot_price hashprice
  -- 3) sell BTC for OPEX at spot
  let btc_for_opex := wf_btc_for_opex p spot_price hashprice
  let btc_sell_opex := min btc_produced btc_for_opex
  let btc_remaining := btc_produced - btc_sell_opex
  let total_btc_sold := st.total_btc_sold + btc_sell_opex
  -- 4) deficit check (0.95 is 19/20)
  let opex_coverage_ratio :=
    if 0 < total_opex_usd then btc_produced * spot_price / total_opex_usd
    else 999
  let b : WaterfallBranch :=
    if btc_produced < btc_for_opex * (19/20) then
      { month_flag := "RED", yield_paid_usd := 0, btc_for_yield := 0,
        btc_remaining := btc_remaining,
        capitalization_btc := st.capitalization_btc,
        total_btc_sold := total_btc_sold,
        red_flag_months := st.red_flag_months + 1 }
    else
      -- 5) yield distribution and 6) capitalization
      let current_apr := wf_current_apr p t
      let yield_distributable_usd := btc_remaining * spot_price
      let yield_cap_usd := p.capital_raised_usd * (current_apr / 12)
      let yield_paid_usd := min yield_distributable_usd yield_cap_usd
      let btc_for_yield :=
        if 0 < spot_price then yield_paid_usd / spot_price else 0
      let btc_remaining2 := btc_remaining - btc_for_yield
      let total_btc_sold2 := total_btc_sold + btc_for_yield
      let capitalization_btc :=
        if 0 < btc_remaining2 then st.capitalization_btc + btc_remaining2
        else st.capitalization_btc
      { month_flag := "GREEN", yield_paid_usd := yield_paid_usd,
        btc_for_yield := btc_for_yield, btc_remaining := btc_remaining2,
        capitalization_btc := capitalization_btc,
        total_btc_sold := total_btc_sold2,
        red_flag_months := st.red_flag_months }
  let cumulative_yield_paid := st.cumulative_yield_paid + b.yield_paid_usd
  -- 7) take-profit ladder on the capitalization pool (no latch), then the
  -- mark-to-market recomputation of capitalization_usd
  let tpr := run_take_profit spot_price p.take_profit_ladder 0
    b.capitalization_btc b.total_btc_sold
  let capitalization_btc := tpr.2.1
  let capitalization_usd := capitalization_btc * spot_price
  -- 8) ratios and health score
  let target_yield_usd := p.capital_raised_usd * (p.base_yield_apr / 12)
  let yield_fulfillment :=
    if 0 < target_yield_usd then b.yield_paid_usd / target_yield_usd else 0
  let health := compute_health_score opex_coverage_ratio yield_fulfillment
    b.month_flag
  { month := t, spot_price := spot_price, hashprice := hashprice,
    btc_produced := btc_produced, total_opex_usd := total_opex_usd,
    btc_for_opex := btc_for_opex, btc_sell_opex := btc_sell_opex,
    opex_coverage_ratio := opex_coverage_ratio, month_flag := b.month_flag,
    yield_paid_usd := b.yield_paid_usd, btc_for_yield := b.btc_for_yield,
    btc_remaining := b.btc_remaining, take_profit_sold_usd := tpr.1,
    yield_fulfillment := yield_fulfillment,
    yield_apr_applied := wf_current_apr p t, health_score := health,
    state := { capitalization_btc := capitalization_btc,
               capitalization_usd := capitalization_usd,
               cumulative_yield_paid := cumulative_yield_paid,
               total_btc_produced := total_btc_produced,
               total_btc_sold := tpr.2.2,
               red_flag_months := b.red_flag_months } }

/-- The per-month dict appended to `monthly_waterfall`, with the rounding
of the source applied. -/
structure WaterfallRecord where
  month : ℕ
  btc_price_usd : ℚ
  btc_produced : ℚ
  btc_sell_opex : ℚ
  btc_for_yield : ℚ
  btc_to_capitalization : ℚ
  opex_usd : ℚ
  yield_paid_usd : ℚ
  yield_apr_applied : ℚ
  take_profit_sold_usd : ℚ
  capitalization_btc : ℚ
  capitalization_usd : ℚ
  opex_coverage_ratio : ℚ
  yield_fulfillment : ℚ
  health_score : ℚ
  flag : String

/-- Builds the rounded `monthly_waterfall` record from the raw month
trace. -/
def waterfall_record (w : WaterfallMonth) : WaterfallRecord :=
  { month := w.month
    btc_price_usd := pyRound w.spot_price 2
    btc_produced := pyRound w.btc_produced 8
    btc_sell_opex := pyRound w.btc_sell_opex 8
    btc_for_yield := pyRound
      (if 0 < w.spot_price ∧ 0 < w.yield_paid_usd then
        w.yield_paid_usd / w.spot_price else 0) 8
    btc_to_capitalization := pyRound
      (if w.month_flag = "GREEN" then max 0 w.btc_remaining else 0) 8
    opex_usd := pyRound w.total_opex_usd 2
    yield_paid_usd := pyRound w.yield_paid_usd 2
    yield_apr_applied := pyRound w.yield_apr_applied 4
    take_profit_sold_usd := pyRound w.take_profit_sold_usd 2
    capitalization_btc := pyRound w.state.capitalization_btc 8
    capitalization_usd := pyRound w.state.capitalization_usd 2
    opex_coverage_ratio := pyRound w.opex_coverage_ratio 4
    yield_fulfillment := pyRound w.yield_fulfillment 4
    health_score := pyRound w.health_score 1
    flag := w.month_flag }

/-- The month loop of `simulate_product_3y`: runs `n` months starting at
month index `t` from state `st`, returning the raw traces in order.
Out-of-range list reads default to 0; the caller only runs the loop for
`sim_months ≤ length` months, so the default is never used. -/
def waterfall_months (p : WaterfallParams) (prices hashprices : List ℚ) :
    ℕ → ℕ → WaterfallState → List WaterfallMonth
  | _, 0, _ => []
  | t, Nat.succ n, st =>
    let w := waterfall_month p t (prices.getD t 0) (hashprices.getD t 0) st
    w :: waterfall_months p prices hashprices (t + 1) n w.state

/-- The `metrics` dict of `simulate_product_3y`. -/
structure WaterfallMetrics where
  final_health_score : ℚ
  total_btc_produced : ℚ
  total_btc_sold : ℚ
  cumulative_yield_paid_usd : ℚ
  avg_monthly_yield_usd : ℚ
  effective_apr : ℚ
  red_flag_months : ℕ
  capitalization_btc_final : ℚ
  capitalization_usd_final : ℚ
  avg_opex_coverage_ratio : ℚ

/-- The return value of `simulate_product_3y`. -/
structure WaterfallResult where
  monthly_waterfall : List WaterfallRecord
  metrics : WaterfallMetrics
  flags : List String
  decision : String
  decision_reasons : List String

/-- Embedding of `simulate_product_3y` from `product_waterfall.py`.  The
deficit flag strings appended per RED month are kept as a constant string
(their f-string numbers elided). -/
def simulate_product_3y (p : WaterfallParams)
    (btc_prices hashprice_btc_per_ph_day : List ℚ) : WaterfallResult :=
  let sim_months := min p.product_tenor_months
    (min btc_prices.length hashprice_btc_per_ph_day.length)
  let trace := waterfall_months p btc_prices hashprice_btc_per_ph_day 0
    sim_months waterfallInitState
  let monthly_waterfall := trace.map waterfall_record
  let finalState :=
    ((trace.getLast?).map (fun w => w.state)).getD waterfallInitState
  let final_health :=
    ((monthly_waterfall.getLast?).map (fun r => r.health_score)).getD 0
  let avg_yield :=
    if 0 < sim_months then finalState.cumulative_yield_paid / (sim_months : ℚ)
    else 0
  let effective_apr :=
    if 0 < p.capital_raised_usd ∧ 0 < sim_months then
      (finalState.cumulative_yield_paid / p.capital_raised_usd)
        / ((sim_months : ℚ) / 12)
    else 0
  let avg_opex_coverage :=
    if 0 < sim_months then
      (monthly_waterfall.map (fun r => r.opex_coverage_ratio)).sum
        / (sim_months : ℚ)
    else 0
  let flags := trace.foldl
    (fun acc w => if w.month_flag = "RED" then acc ++ ["Month DEFICIT"]
      else acc) []
  let md := make_decision finalState.red_flag_months sim_months final_health
  { monthly_waterfall := monthly_waterfall
    metrics :=
      { final_health_score := pyRound final_health 1
        total_btc_produced := pyRound finalState.total_btc_produced 8
        total_btc_sold := pyRound finalState.total_btc_sold 8
        cumulative_yield_paid_usd := pyRound finalState.cumulative_yield_paid 2
        avg_monthly_yield_usd := pyRound avg_yield 2
        effective_apr := pyRound effective_apr 4
        red_flag_months := finalState.red_flag_months
        capitalization_btc_final := pyRound finalState.capitalization_btc 8
        capitalization_usd_final := pyRound finalState.capitalization_usd 2
        avg_opex_coverage_ratio := pyRound avg_opex_coverage 4 }
    flags := flags
    decision := md.1
    decision_reasons := md.2 }

/-- C2: in a month of `simulate_product_3y` with positive spot price and
positive OPEX in which the BTC produced covers less than 95% (`19/20`) of
the BTC required for OPEX, the month is flagged RED, the month's
`yield_paid_usd` is 0 (raw and in the rounded record), the record routes no
BTC to the capitalization pool (`btc_to_capitalization = 0`), and the RED
counter increments. -/
theorem waterfall_deficit_red (p : WaterfallParams) (t : ℕ)
    (spot hashprice : ℚ) (st : WaterfallState)
    (_hspot : 0 < spot)
    (_hopex : 0 < wf_total_opex_usd p spot hashprice)
    (hdef : wf_btc_produced p hashprice
      < wf_btc_for_opex p spot hashprice * (19/20)) :
    (waterfall_month p t spot hashprice st).month_flag = "RED"
    ∧ (waterfall_month p t spot hashprice st).yield_paid_usd = 0
    ∧ (waterfall_record (waterfall_month p t spot hashprice st)).yield_paid_usd = 0
    ∧ (waterfall_record (waterfall_month p t spot hashprice st)).btc_to_capitalization = 0
    ∧ (waterfall_month p t spot hashprice st).state.red_flag_months
        = st.red_flag_months + 1 := by
  have hflag : (waterfall_month p t spot hashprice st).month_flag = "RED" := by
    simp only [waterfall_month, if_pos hdef]
  have hyield : (waterfall_month p t spot hashprice st).yield_paid_usd = 0 := by
    simp only [waterfall_month, if_pos hdef]
  refine ⟨hflag, hyield, ?_, ?_, ?_⟩
  · simp only [waterfall_record, hyield]
    exact pyRound_zero 2
  · simp only [waterfall_record, hflag]
    rw [if_neg (by decide), pyRound_zero]
  · simp only [waterfall_month, if_pos hdef]

/-- Concrete parameter set used to exercise the waterfall: one 1000 TH
miner drawing 1000 W, hosting fee 10 USD/kW/month, no other costs, with a
single-entry take-profit ladder (trigger 10, sell 50%). -/
def tpParamsExample : WaterfallParams :=
  { miner_hashrate_th := 1000, miner_power_w := 1000, miner_count := 1,
    miner_lifetime_months := 60, miner_maintenance_pct := 0,
    electricity_rate := 0, hosting_fee_per_kw_month := 0,
    uptime := 1, curtailment_pct := 0,
    capital_raised_usd := 0, product_tenor_months := 2,
    base_yield_apr := 2/25, bonus_yield_apr := 1/25,
    holding_sell_month := none,
    calibration_uptime_factor := 1, calibration_production_adj := 1,
    take_profit_ladder := [{ price_trigger := 10, sell_pct := 1/2 }] }

/-- Deficit example: same fleet but with a 10 USD/kW/month hosting fee and
a zero hashprice month, so OPEX is positive while production is zero. -/
def redParamsExample : WaterfallParams :=
  { miner_hashrate_th := 1000, miner_power_w := 1000, miner_count := 1,
    miner_lifetime_months := 60, miner_maintenance_pct := 0,
    electricity_rate := 0, hosting_fee_per_kw_month := 10,
    uptime := 1, curtailment_pct := 0,
    capital_raised_usd := 1000000, product_tenor_months := 12,
    base_yield_apr := 2/25, bonus_yield_apr := 1/25,
    holding_sell_month := none,
    calibration_uptime_factor := 1, calibration_production_adj := 1,
    take_profit_ladder := [] }

unseal Rat.mul Rat.add Rat.sub Rat.inv in
/-- Witness for C2: a concrete deficit month (spot 100, hashprice 0, OPEX
10 USD) with every hypothesis of `waterfall_deficit_red` discharged by
evaluation. -/
theorem waterfall_deficit_red_witness :
    (waterfall_month redParamsExample 0 100 0 waterfallInitState).month_flag = "RED"
    ∧ (waterfall_month redParamsExample 0 100 0 waterfallInitState).yield_paid_usd = 0
    ∧ (waterfall_record (waterfall_month redParamsExample 0 100 0 waterfallInitState)).yield_paid_usd = 0
    ∧ (waterfall_record (waterfall_month redParamsExample 0 100 0 waterfallInitState)).btc_to_capitalization = 0
    ∧ (waterfall_month redParamsExample 0 100 0 waterfallInitState).state.red_flag_months
        = waterfallInitState.red_flag_months + 1 :=
  waterfall_deficit_red redParamsExample 0 100 0 waterfallInitState
    (by decide) (by decide) (by decide)

unseal Rat.mul Rat.add Rat.sub Rat.inv in
/-- C1 counterexample: running `simulate_product_3y` on a ladder with a
single take-profit entry (trigger 10, sell 50%), with spot 100 in both of
two months, the entry sells BTC from the capitalization pool in month 0
(1522 USD) and again in month 1 (2283 USD): take-profit entries in
`simulate_product_3y` are not single-fire. -/
theorem take_profit_refires_counterexample :
    tpParamsExample.take_profit_ladder.length = 1
    ∧ ((simulate_product_3y tpParamsExample [100, 100] [1, 1]).monthly_waterfall.map
        (fun r => r.take_profit_sold_usd)) = [1522, 2283] := by
  constructor
  · decide
  · decide

/-- Conservation property of the take-profit loop: when every sell
fraction lies in [0, 1], the capitalization pool stays non-negative and
BTC only moves from the pool to the sold total (their sum is invariant). -/
theorem run_take_profit_conserves (spot : ℚ) (ladder : List TakeProfitEntry) :
    (∀ tp ∈ ladder, 0 ≤ tp.sell_pct ∧ tp.sell_pct ≤ 1) →
    ∀ tps cap sold, 0 ≤ cap →
      0 ≤ (run_take_profit spot ladder tps cap sold).2.1
      ∧ (run_take_profit spot ladder tps cap sold).2.2
          + (run_take_profit spot ladder tps cap sold).2.1 = sold + cap := by
  induction ladder with
  | nil =>
    intro _ tps cap sold hcap
    exact ⟨hcap, rfl⟩
  | cons tp rest ih =>
    intro hl tps cap sold hcap
    have htp := hl tp (List.mem_cons_self _ _)
    have hrest := fun x hx => hl x (List.mem_cons_of_mem _ hx)
    by_cases hc : tp.price_trigger ≤ spot ∧ 0 < cap
    · have hcap' : 0 ≤ cap - cap * tp.sell_pct := by
        nlinarith [mul_nonneg hc.2.le (sub_nonneg.mpr htp.2)]
      have h := ih hrest (tps + cap * tp.sell_pct * spot)
        (cap - cap * tp.sell_pct) (sold + cap * tp.sell_pct) hcap'
      simp only [run_take_profit, if_pos hc]
      exact ⟨h.1, by rw [h.2]; ring⟩
    · have h := ih hrest tps cap sold hcap
      simp only [run_take_profit, if_neg hc]
      exact h

/-- Bound form of `run_take_profit_conserves` used in the month step. -/
theorem run_take_profit_bound (spot : ℚ) (ladder : List TakeProfitEntry)
    (hl : ∀ tp ∈ ladder, 0 ≤ tp.sell_pct ∧ tp.sell_pct ≤ 1)
    (cap sold prod : ℚ) (hcap : 0 ≤ cap) (hsum : sold + cap ≤ prod) :
    0 ≤ (run_take_profit spot ladder 0 cap sold).2.1
    ∧ (run_take_profit spot ladder 0 cap sold).2.2
        + (run_take_profit spot ladder 0 cap sold).2.1 ≤ prod := by
  have h := run_take_profit_conserves spot ladder hl 0 cap sold hcap
  exact ⟨h.1, by rw [h.2]; exact hsum⟩

/-- Month-to-month invariant of the waterfall state: the capitalization
pool is non-negative, and the cumulative BTC sold plus the pool never
exceeds the cumulative BTC produced. -/
def WaterfallInv (st : WaterfallState) : Prop :=
  0 ≤ st.capitalization_btc
  ∧ st.total_btc_sold + st.capitalization_btc ≤ st.total_btc_produced

/-- One month of the waterfall preserves the conservation invariant when
every take-profit sell fraction lies in [0, 1]. -/
theorem waterfall_month_inv (p : WaterfallParams)
    (hl : ∀ tp ∈ p.take_profit_ladder, 0 ≤ tp.sell_pct ∧ tp.sell_pct ≤ 1)
    (t : ℕ) (spot hashprice : ℚ) (st : WaterfallState)
    (hst : WaterfallInv st) :
    WaterfallInv (waterfall_month p t spot hashprice st).state := by
  obtain ⟨hcap0, hsum0⟩ := hst
  have hminP : min (wf_btc_produced p hashprice)
      (wf_btc_for_opex p spot hashprice) ≤ wf_btc_produced p hashprice :=
    min_le_left _ _
  by_cases hdef : wf_btc_produced p hashprice
      < wf_btc_for_opex p spot hashprice * (19/20)
  · simp only [waterfall_month, if_pos hdef, WaterfallInv]
    exact run_take_profit_bound spot p.take_profit_ladder hl _ _ _ hcap0
      (by linarith)
  · simp only [waterfall_month, if_neg hdef, WaterfallInv]
    -- abbreviations for the green-branch quantities
    set P := wf_btc_produced p hashprice with hP
    set F := wf_btc_for_opex p spot hashprice with hF
    set R := P - min P F with hR
    set Y := min (R * spot) (p.capital_raised_usd * (wf_current_apr p t / 12))
      with hY
    set B := if 0 < spot then Y / spot else 0 with hB
    have hR0 : 0 ≤ R := by rw [hR]; linarith
    have hBR : B ≤ R := by
      rw [hB]
      split
      · rename_i hs
        rw [div_le_iff₀ hs]
        exact le_trans (min_le_left _ _) (le_refl _)
      · exact hR0
    have hR20 : 0 ≤ R - B := by linarith
    set C := if 0 < R - B then st.capitalization_btc + (R - B)
      else st.capitalization_btc with hC
    have hC0 : 0 ≤ C := by
      rw [hC]; split
      · linarith
      · exact hcap0
    have hCle : C ≤ st.capitalization_btc + (R - B) := by
      rw [hC]; split
      · exact le_refl _
      · linarith
    exact run_take_profit_bound spot p.take_profit_ladder hl _ _ _ hC0
      (by linarith)

/-- The month loop of the waterfall preserves the conservation invariant
along the whole trace. -/
theorem waterfall_months_inv (p : WaterfallParams)
    (hl : ∀ tp ∈ p.take_profit_ladder, 0 ≤ tp.sell_pct ∧ tp.sell_pct ≤ 1)
    (prices hashprices : List ℚ) :
    ∀ (n t : ℕ) (st : WaterfallState), WaterfallInv st →
      ∀ w ∈ waterfall_months p prices hashprices t n st,
        WaterfallInv w.state := by
  intro n
  induction n with
  | zero =>
    intro t st _ w hw
    simp [waterfall_months] at hw
  | succ n ih =>
    intro t st hst w hw
    simp only [waterfall_months] at hw
    rcases List.mem_cons.mp hw with h | h
    · rw [h]
      exact waterfall_month_inv p hl t _ _ st hst
    · exact ih (t + 1) _ (waterfall_month_inv p hl t _ _ st hst) w h

/-- C9: along the month trace of `simulate_product_3y` (the trace whose
rounded records form `monthly_waterfall`), under the precondition that
every take-profit sell fraction lies in [0, 1] and all prices and
hashprices are non-negative, after every month the capitalization pool is
non-negative and the cumulative `total_btc_sold` never exceeds the
cumulative `total_btc_produced`. -/
theorem waterfall_capitalization_conservation (p : WaterfallParams)
    (btc_prices hashprices : List ℚ)
    (hl : ∀ tp ∈ p.take_profit_ladder, 0 ≤ tp.sell_pct ∧ tp.sell_pct ≤ 1)
    (_hp : ∀ x ∈ btc_prices, 0 ≤ x) (_hh : ∀ x ∈ hashprices, 0 ≤ x) :
    ∀ w ∈ waterfall_months p btc_prices hashprices 0
        (min p.product_tenor_months
          (min btc_prices.length hashprices.length))
        waterfallInitState,
      0 ≤ w.state.capitalization_btc
      ∧ w.state.total_btc_sold ≤ w.state.total_btc_produced := by
  intro w hw
  have hinit : WaterfallInv waterfallInitState := by
    constructor <;> simp [waterfallInitState]
  have h := waterfall_months_inv p hl btc_prices hashprices _ 0
    waterfallInitState hinit w hw
  obtain ⟨h1, h2⟩ := h
  exact ⟨h1, by linarith⟩

/-- The first month of the concrete two-month conservation run. -/
def conservationWitnessMonth : WaterfallMonth :=
  (waterfall_months tpParamsExample [100, 100] [1, 1] 0
    (min tpParamsExample.product_tenor_months (min 2 2))
    waterfallInitState).headI

unseal Rat.mul Rat.add Rat.sub Rat.inv in
/-- Witness for C9: the concrete two-month run of `tpParamsExample`,
with every hypothesis discharged by evaluation on the first month of the
trace. -/
theorem waterfall_capitalization_conservation_witness :
    0 ≤ conservationWitnessMonth.state.capitalization_btc
    ∧ conservationWitnessMonth.state.total_btc_sold
      ≤ conservationWitnessMonth.state.total_btc_produced :=
  waterfall_capitalization_conservation tpParamsExample [100, 100] [1, 1]
    (by decide) (by decide) (by decide) conservationWitnessMonth (by decide)

/-! ## backend/engine/btc_price.py — generate_btc_price_curve -/

/-- Overwriting insert with Python-dict semantics: an existing key keeps
its position and takes the new value, a new key is appended. -/
def dictInsert (l : List (ℕ × ℚ)) (k : ℕ) (v : ℚ) : List (ℕ × ℚ) :=
  if l.any (fun e => e.1 = k) then
    l.map (fun e => if e.1 = k then (k, v) else e)
  else l ++ [(k, v)]

/-- Python `d.get(k, default)` / `d[k]` on the association-list model of a
dict (keys are unique by construction). -/
def dictGet (l : List (ℕ × ℚ)) (k : ℕ) (v : ℚ) : ℚ :=
  ((l.find? (fun e => e.1 = k)).map (fun e => e.2)).getD v

/-- Ordering of anchor items by year index, as Python's
`sorted(anchor_points.items())` (keys are unique, so comparing the values
never happens). -/
def anchorLe (a b : ℕ × ℚ) : Prop := a.1 ≤ b.1

instance : DecidableRel anchorLe := fun a b => Nat.decLe a.1 b.1

/-- The `month_anchors` dict of `generate_btc_price_curve`: year-indexed
anchors become month-indexed breakpoints (clamping a `month_idx == months`
anchor to `months - 1`), and month 0 is defaulted to the start price when
absent. -/
def build_month_anchors (start_price : ℚ) (months : ℕ)
    (anchor_points : List (ℕ × ℚ)) : List (ℕ × ℚ) :=
  let withAnchors := (anchor_points.insertionSort anchorLe).foldl
    (fun acc yp =>
      let month_idx := yp.1 * 12
      if month_idx < months then dictInsert acc month_idx yp.2
      else if month_idx = months then dictInsert acc (months - 1) yp.2
      else acc) []
  if withAnchors.any (fun e => e.1 = 0) then withAnchors
  else dictInsert withAnchors 0 start_price

/-- The `sorted_months` list: the anchor keys in ascending order. -/
def sorted_anchor_keys (l : List (ℕ × ℚ)) : List ℕ :=
  (l.map (fun e => e.1)).insertionSort (fun a b => a ≤ b)

/-- The inner loop of the `step` branch: walk the sorted anchor months,
holding the last anchor value at or before month `m` (the `break` of the
source is the early return). -/
def step_hold (anchors : List (ℕ × ℚ)) (m : ℕ) :
    List ℕ → ℚ → ℚ
  | [], val => val
  | am :: rest, val =>
    if am ≤ m then step_hold anchors m rest (dictGet anchors am 0)
    else val

/-- The inner loop of the `linear` branch: returns the final
`(lower_m, lower_p, upper_m, upper_p)` quadruple (the `break` of the source
is the early return). -/
def linear_scan (anchors : List (ℕ × ℚ)) (m : ℕ) :
    List ℕ → ℕ × ℚ × ℕ × ℚ → ℕ × ℚ × ℕ × ℚ
  | [], st => st
  | am :: rest, (lm, lp, um, up) =>
    let lm' := if am ≤ m then am else lm
    let lp' := if am ≤ m then dictGet anchors am 0 else lp
    if m ≤ am then (lm', lp', am, dictGet anchors am 0)
    else linear_scan anchors m rest (lm', lp', um, up)

/-- The `linear` branch's value at month `m`: linear interpolation between
the bracketing anchors, rounded to 2 decimals (the degenerate equal-anchor
case returns the raw lower price, as in the source). -/
def linear_value (start_price : ℚ) (months m : ℕ)
    (anchors : List (ℕ × ℚ)) (skeys : List ℕ) : ℚ :=
  let lower_p := dictGet anchors 0 start_price
  let upper_p := dictGet anchors (months - 1) lower_p
  let s := linear_scan anchors m skeys (0, lower_p, months - 1, upper_p)
  if s.2.2.1 = s.1 then s.2.1
  else pyRound
    (s.2.1 + (((m : ℚ) - (s.1 : ℚ)) / ((s.2.2.1 : ℚ) - (s.1 : ℚ)))
      * (s.2.2.2 - s.2.1)) 2

/-- One round of the 32-bit mixing loop of `_deterministic_noise`. -/
def mixRound (x : ℕ) : ℕ :=
  let x1 := ((x ^^^ (x >>> 16)) * 0x85ebca6b) &&& 0xFFFFFFFF
  let x2 := ((x1 ^^^ (x1 >>> 13)) * 0xc2b2ae35) &&& 0xFFFFFFFF
  (x2 ^^^ (x2 >>> 16)) &&& 0xFFFFFFFF

/-- Embedding of `_deterministic_noise`: Knuth multiplicative hash of the
month index XORed with the seed, three mixing rounds, mapped into
[-1, 1]. -/
def deterministic_noise (seed index : ℕ) : ℚ :=
  let x := mixRound (mixRound (mixRound (seed ^^^ (index * 2654435761))))
  ((x : ℚ) / 0xFFFFFFFF) * 2 - 1

/-- Embedding of `_apply_volatility` (`0.05` is `1/20`). -/
def apply_volatility (prices : List ℚ) (enabled : Bool) (seed : ℕ) :
    List ℚ :=
  if enabled = false then prices.map (fun p => pyRound p 2)
  else
    prices.enum.map (fun pr =>
      let factor := 1 + deterministic_noise seed pr.1 * (1/20)
      pyRound (pr.2 * factor) 2)

/-- The `while len(prices) < months` padding loop of the `custom` branch,
appending the last value (or the start price when the list is empty). -/
def padTo (n : ℕ) (start_price : ℚ) (l : List ℚ) : List ℚ :=
  if h : l.length < n then
    padTo n start_price (l ++ [l.getLast?.getD start_price])
  else l
termination_by n - l.length
decreasing_by simp [List.length_append]; omega

/-- Embedding of `generate_btc_price_curve` from `btc_price.py`.  The
`custom` branch requires a non-empty supplied list (Python truthiness of
`custom_monthly_prices`); otherwise anchors are interpolated in `step` or
`linear` (default) mode. -/
def generate_btc_price_curve (start_price : ℚ) (months : ℕ)
    (anchor_points : List (ℕ × ℚ)) (interpolation_type : String)
    (custom_monthly_prices : Option (List ℚ))
    (volatility_enabled : Bool) (volatility_seed : ℕ) : List ℚ :=
  if interpolation_type = "custom" ∧ (custom_monthly_prices.getD []) ≠ [] then
    let prices := (custom_monthly_prices.getD []).take months
    apply_volatility (padTo months start_price prices)
      volatility_enabled volatility_seed
  else
    let month_anchors := build_month_anchors start_price months anchor_points
    let skeys := sorted_anchor_keys month_anchors
    let prices :=
      if interpolation_type = "step" then
        (List.range months).map
          (fun m => step_hold month_anchors m skeys start_price)
      else
        (List.range months).map
          (fun m => linear_value start_price months m month_anchors skeys)
    apply_volatility prices volatility_enabled volatility_seed

theorem apply_volatility_length (prices : List ℚ) (enabled : Bool)
    (seed : ℕ) :
    (apply_volatility prices enabled seed).length = prices.length := by
  unfold apply_volatility
  split
  · simp
  · simp

theorem padTo_length_aux (n : ℕ) (sp : ℚ) :
    ∀ (k : ℕ) (l : List ℚ), n - l.length ≤ k →
      (padTo n sp l).length = max n l.length := by
  intro k
  induction k with
  | zero =>
    intro l hl
    unfold padTo
    rw [dif_neg (by omega)]
    omega
  | succ k ih =>
    intro l hl
    unfold padTo
    split
    · rename_i h
      rw [ih (l ++ [l.getLast?.getD sp]) (by simp; omega)]
      simp
      omega
    · rename_i h
      omega

theorem padTo_length (n : ℕ) (sp : ℚ) (l : List ℚ) :
    (padTo n sp l).length = max n l.length :=
  padTo_length_aux n sp (n - l.length) l le_rfl

/-- C10: `generate_btc_price_curve` returns exactly `months` values for
every combination of interpolation mode, custom list (longer lists are
truncated, shorter ones padded, empty or missing ones fall back to anchor
interpolation), anchor map (an empty one is defaulted with the start price
at month 0) and volatility setting. -/
theorem generate_btc_price_curve_length (start_price : ℚ) (months : ℕ)
    (anchor_points : List (ℕ × ℚ)) (interpolation_type : String)
    (custom_monthly_prices : Option (List ℚ))
    (volatility_enabled : Bool) (volatility_seed : ℕ) :
    (generate_btc_price_curve start_price months anchor_points
      interpolation_type custom_monthly_prices volatility_enabled
      volatility_seed).length = months := by
  unfold generate_btc_price_curve
  split
  · rw [apply_volatility_length, padTo_length]
    simp [List.length_take]
  · split
    · rw [apply_volatility_length]
      simp
    · rw [apply_volatility_length]
      simp

/-! ## backend/engine/product_bitcoin.py — simulate_bitcoin_scenario -/

/-- One entry of the strike ladder passed to `simulate_bitcoin_scenario`
(a `{strike_price, btc_sell_pct}` dict; the API schema always supplies
both keys). -/
structure StrikeEntry where
  strike_price : ℚ
  btc_sell_pct : ℚ
deriving DecidableEq

/-- One element of the `strike_status` tracking list (each strike entry
carries its single-fire latch `triggered`). -/
structure StrikeStatus where
  strike_price : ℚ
  btc_sell_pct : ℚ
  triggered : Bool
  trigger_month : Option ℕ
  btc_sold : ℚ
  usd_received : ℚ
  debt_repaid : ℚ
deriving DecidableEq, Inhabited

/-- Parameters of `simulate_bitcoin_scenario` (`miner_lifetime_months` is
in the Python signature but unused in the body). -/
structure BitcoinParams where
  capital_raised_usd : ℚ
  btc_allocation_pct : ℚ
  buying_price_usd : ℚ
  collateral_ltv_pct : ℚ
  borrowing_apr : ℚ
  liquidation_ltv_pct : ℚ
  miner_hashrate_th : ℚ
  miner_power_w : ℚ
  miner_count : ℤ
  miner_lifetime_months : ℤ
  miner_maintenance_pct : ℚ
  miner_price_usd : ℚ
  electricity_rate : ℚ
  hosting_fee_per_kw_month : ℚ
  uptime : ℚ
  curtailment_pct : ℚ
  tenor_months : ℕ
  strike_ladder : List StrikeEntry
  reserve_yield_apr : ℚ
  base_yield_apr : ℚ
  bonus_yield_apr : ℚ
  early_close_threshold_pct : ℚ
  upfront_commercial_pct : ℚ
  management_fees_pct : ℚ
  performance_fees_pct : ℚ
deriving DecidableEq

/-- Inception: the upfront commercial fee deducted from capital. -/
def btc_upfront_fee (p : BitcoinParams) : ℚ :=
  if 0 < p.upfront_commercial_pct then
    p.capital_raised_usd * (p.upfront_commercial_pct / 100)
  else 0

/-- Inception: capital net of the upfront fee. -/
def btc_effective_capital (p : BitcoinParams) : ℚ :=
  p.capital_raised_usd - btc_upfront_fee p

/-- Inception: the capital used to buy BTC. -/
def btc_capital_split (p : BitcoinParams) : ℚ :=
  btc_effective_capital p * (p.btc_allocation_pct / 100)

/-- Inception: the BTC bought at the buying price (zero-price guard). -/
def btc_purchased (p : BitcoinParams) : ℚ :=
  if 0 < p.buying_price_usd then btc_capital_split p / p.buying_price_usd
  else 0

/-- Inception: stablecoins minted against the collateral to fund the miner
purchase (`min(miner_capex, max(0, mintable_now))`). -/
def btc_minted_for_capex (p : BitcoinParams) : ℚ :=
  let collateral_value_usd := btc_purchased p * p.buying_price_usd
  let max_mintable := collateral_value_usd * (p.collateral_ltv_pct / 100)
  let miner_capex := (p.miner_count : ℚ) * p.miner_price_usd
  min miner_capex (max 0 max_mintable)

/-- The mutable state of the `simulate_bitcoin_scenario` month loop. -/
structure BitcoinState where
  stablecoin_reserve : ℚ
  stablecoin_debt : ℚ
  btc_collateral : ℚ
  strike_status : List StrikeStatus
  total_btc_mined : ℚ
  total_interest_paid : ℚ
  total_opex_paid : ℚ
  total_debt_repaid : ℚ
  total_mgmt_fees : ℚ
  total_reserve_yield : ℚ
  liquidation_months : ℕ
  cumulative_yield_paid : ℚ
  total_yield_paid : ℚ
  bonus_active : Bool
  early_close_month : Option ℕ
deriving DecidableEq, Inhabited

/-- The inception state of `simulate_bitcoin_scenario` (month-0 setup plus
zeroed accumulators and untriggered strike statuses). -/
def bitcoinInitState (p : BitcoinParams) : BitcoinState :=
  { stablecoin_reserve := btc_effective_capital p - btc_capital_split p
    stablecoin_debt := btc_minted_for_capex p
    btc_collateral := btc_purchased p
    strike_status := p.strike_ladder.map (fun s =>
      { strike_price := s.strike_price, btc_sell_pct := s.btc_sell_pct,
        triggered := false, trigger_month := none, btc_sold := 0,
        usd_received := 0, debt_repaid := 0 })
    total_btc_mined := 0, total_interest_paid := 0, total_opex_paid := 0
    total_debt_repaid := 0, total_mgmt_fees := 0, total_reserve_yield := 0
    liquidation_months := 0, cumulative_yield_paid := 0
    total_yield_paid := 0, bonus_active := false
    early_close_month := none }

/-- One record of the `strike_events` output list (rounded as in the
source). -/
structure StrikeEvent where
  month : ℕ
  strike_price : ℚ
  btc_price_usd : ℚ
  btc_sold : ℚ
  usd_received : ℚ
  debt_repaid : ℚ
  surplus_to_reserve : ℚ
  remaining_debt : ℚ
  remaining_btc : ℚ
deriving DecidableEq, Inhabited

/-- Accumulator of the strike-ladder loop (step 7): the processed status
list so far and the running collateral/debt/reserve and per-month strike
totals. -/
structure StrikeLoopAcc where
  strike_status : List StrikeStatus
  btc_collateral : ℚ
  stablecoin_debt : ℚ
  stablecoin_reserve : ℚ
  strike_sold_btc : ℚ
  strike_received_usd : ℚ
  strike_debt_repaid : ℚ
  total_debt_repaid : ℚ
  bonus_active : Bool
  events : List StrikeEvent
deriving DecidableEq

/-- The strike-ladder loop of `simulate_bitcoin_scenario` (step 7): an
already-triggered entry is skipped (`continue`); an entry whose strike the
spot price reaches (with positive collateral) sells
`btc_sell_pct`% of the collateral, repays debt first, routes the surplus
to the reserve, latches `triggered`, and activates the bonus yield. -/
def run_strikes (spot : ℚ) (t : ℕ) :
    List StrikeStatus → StrikeLoopAcc → StrikeLoopAcc
  | [], acc => acc
  | s :: rest, acc =>
    if s.triggered then
      run_strikes spot t rest
        { acc with strike_status := acc.strike_status ++ [s] }
    else if s.strike_price ≤ spot ∧ 0 < acc.btc_collateral then
      let sell_btc := acc.btc_collateral * (s.btc_sell_pct / 100)
      let proceeds := sell_btc * spot
      let repay := min proceeds acc.stablecoin_debt
      let surplus := proceeds - repay
      let s' := { s with
        triggered := true
        trigger_month := some t
        btc_sold := pyRound sell_btc 8
        usd_received := pyRound proceeds 2
        debt_repaid := pyRound repay 2 }
      let ev : StrikeEvent :=
        { month := t, strike_price := s.strike_price,
          btc_price_usd := pyRound spot 2, btc_sold := pyRound sell_btc 8,
          usd_received := pyRound proceeds 2, debt_repaid := pyRound repay 2,
          surplus_to_reserve := pyRound surplus 2,
          remaining_debt := pyRound (acc.stablecoin_debt - repay) 2,
          remaining_btc := pyRound (acc.btc_collateral - sell_btc) 8 }
      run_strikes spot t rest
        { strike_status := acc.strike_status ++ [s'],
          btc_collateral := acc.btc_collateral - sell_btc,
          stablecoin_debt := acc.stablecoin_debt - repay,
          stablecoin_reserve := acc.stablecoin_reserve + surplus,
          strike_sold_btc := acc.strike_sold_btc + sell_btc,
          strike_received_usd := acc.strike_received_usd + proceeds,
          strike_debt_repaid := acc.strike_debt_repaid + repay,
          total_debt_repaid := acc.total_debt_repaid + repay,
          bonus_active := true,
          events := acc.events ++ [ev] }
    else
      run_strikes spot t rest
        { acc with strike_status := acc.strike_status ++ [s] }

/-- One record of the `monthly_data` output list (rounded as in the
source). -/
structure BitcoinRecord where
  month : ℕ
  btc_price_usd : ℚ
  btc_mined : ℚ
  btc_collateral : ℚ
  collateral_value_usd : ℚ
  stablecoin_reserve : ℚ
  stablecoin_debt : ℚ
  minted_for_opex : ℚ
  interest_usd : ℚ
  mgmt_fee_usd : ℚ
  reserve_yield_usd : ℚ
  cumulative_reserve_yield_usd : ℚ
  yield_paid_usd : ℚ
  yield_from_reserve_usd : ℚ
  yield_from_btc_sale_usd : ℚ
  yield_btc_sold : ℚ
  yield_obligation_usd : ℚ
  yield_apr_applied : ℚ
  yield_fulfillment : ℚ
  cumulative_yield_paid_usd : ℚ
  bonus_yield_active : Bool
  opex_usd : ℚ
  opex_from_reserve : ℚ
  opex_shortfall : Bool
  ltv_pct : ℚ
  liquidation_risk : Bool
  net_equity_usd : ℚ
  strike_sold_btc : ℚ
  strike_received_usd : ℚ
  strike_debt_repaid : ℚ
deriving DecidableEq, Inhabited

/-- One record of the `mining_production` output list. -/
structure MiningProductionRecord where
  month : ℕ
  btc_price_usd : ℚ
  btc_produced : ℚ
  opex_usd : ℚ
  elec_cost_usd : ℚ
  hosting_fee_usd : ℚ
  maintenance_usd : ℚ
deriving DecidableEq, Inhabited

/-- Raw trace of one iteration of the `simulate_bitcoin_scenario` month
loop: key locals, the rounded records, the month's strike events and the
state at the end of the month. -/
structure BitcoinMonth where
  month : ℕ
  spot_price : ℚ
  hashprice : ℚ
  btc_produced : ℚ
  opex_usd : ℚ
  collateral_value : ℚ
  ltv : ℚ
  is_liquidation_risk : Bool
  record : BitcoinRecord
  production : MiningProductionRecord
  events : List StrikeEvent
  state : BitcoinState
deriving DecidableEq, Inhabited

/-- One iteration of the month loop of `simulate_bitcoin_scenario`
(steps 0-7 plus the record construction).  `collateral_value` and `ltv`
hold the post-strike values (the final values of those locals in the
source); `is_liquidation_risk` comes from the pre-strike LTV check, as in
the source. -/
def bitcoin_month (p : BitcoinParams) (t : ℕ) (spot_price hashprice : ℚ)
    (st : BitcoinState) : BitcoinMonth :=
  -- 0) reserve yield
  let reserve_yield := st.stablecoin_reserve * (p.reserve_yield_apr / 12)
  let reserve1 := st.stablecoin_reserve + reserve_yield
  let total_reserve_yield := st.total_reserve_yield + reserve_yield
  -- 1) BTC production (no calibration in this engine)
  let effective_uptime := p.uptime * (1 - p.curtailment_pct)
  let fleet_hashrate_th := p.miner_hashrate_th * (p.miner_count : ℚ)
  let fleet_power_kw := p.miner_power_w * (p.miner_count : ℚ) / 1000
  let btc_produced := hashprice * (fleet_hashrate_th / 1000) * DAYS_PER_MONTH
    * effective_uptime
  let total_btc_mined := st.total_btc_mined + btc_produced
  let collateral1 := st.btc_collateral + btc_produced
  -- 2) OPEX
  let elec_kwh := fleet_power_kw * 24 * DAYS_PER_MONTH * effective_uptime
  let elec_cost := elec_kwh * p.electricity_rate
  let hosting_fee := fleet_power_kw * p.hosting_fee_per_kw_month
  let maintenance := btc_produced * spot_price * p.miner_maintenance_pct
  let opex_usd := elec_cost + hosting_fee + maintenance
  let total_opex_paid := st.total_opex_paid + opex_usd
  -- 3) pay OPEX from the reserve, then mint against collateral if needed
  let opex_from_reserve := min reserve1 opex_usd
  let reserve2 := reserve1 - opex_from_reserve
  let opex_remaining := opex_usd - opex_from_reserve
  let minted_for_opex :=
    if 0 < opex_remaining then
      min opex_remaining
        (max 0 (collateral1 * spot_price * (p.collateral_ltv_pct / 100)
          - st.stablecoin_debt))
    else 0
  let debt1 := st.stablecoin_debt + minted_for_opex
  let opex_shortfall_flag :=
    if 0 < opex_remaining then decide (minted_for_opex < opex_remaining)
    else false
  -- 4) interest on outstanding debt
  let monthly_interest := debt1 * (p.borrowing_apr / 12)
  let debt2 := debt1 + monthly_interest
  let total_interest_paid := st.total_interest_paid + monthly_interest
  -- 5) management fee (added to debt)
  let mgmt_fee :=
    if 0 < p.management_fees_pct then
      p.capital_raised_usd * (p.management_fees_pct / 100 / 12)
    else 0
  let debt3 := debt2 + mgmt_fee
  let total_mgmt_fees := st.total_mgmt_fees + mgmt_fee
  -- 5b) investor yield: reserve first, then selling collateral BTC;
  -- skipped entirely once the product has early-closed
  let current_yield_apr :=
    if st.bonus_active then p.base_yield_apr + p.bonus_yield_apr
    else p.base_yield_apr
  let yield_obligation_usd := p.capital_raised_usd * (current_yield_apr / 12)
  let yb :=
    match st.early_close_month with
    | none =>
      let yield_from_reserve := min reserve2 yield_obligation_usd
      let reserve3 := reserve2 - yield_from_reserve
      let yield_remaining := yield_obligation_usd - yield_from_reserve
      let sell :=
        if 0 < yield_remaining ∧ 0 < spot_price ∧ 0 < collateral1 then
          min (yield_remaining / spot_price) collateral1
        else 0
      let yield_from_btc_sale := sell * spot_price
      let collateral2 := collateral1 - sell
      let yield_paid_usd := yield_from_reserve + yield_from_btc_sale
      let cumulative := st.cumulative_yield_paid + yield_paid_usd
      let early_close :=
        if 0 < p.early_close_threshold_pct ∧ 0 < p.capital_raised_usd
            ∧ p.early_close_threshold_pct * p.capital_raised_usd ≤ cumulative
        then some t else none
      (yield_from_reserve, reserve3, sell, yield_from_btc_sale, collateral2,
        yield_paid_usd, cumulative, st.total_yield_paid + yield_paid_usd,
        early_close)
    | some m =>
      (0, reserve2, 0, 0, collateral1, 0, st.cumulative_yield_paid,
        st.total_yield_paid, some m)
  let yield_from_reserve := yb.1
  let reserve3 := yb.2.1
  let yield_btc_sold := yb.2.2.1
  let yield_from_btc_sale := yb.2.2.2.1
  let collateral2 := yb.2.2.2.2.1
  let yield_paid_usd := yb.2.2.2.2.2.1
  let cumulative_yield_paid := yb.2.2.2.2.2.2.1
  let total_yield_paid := yb.2.2.2.2.2.2.2.1
  let early_close_month := yb.2.2.2.2.2.2.2.2
  let yield_fulfillment :=
    if 0 < yield_obligation_usd then yield_paid_usd / yield_obligation_usd
    else 1
  -- 6) pre-strike LTV check
  let collateral_value1 := collateral2 * spot_price
  let ltv1 :=
    if 0 < collateral_value1 then debt3 / collateral_value1 * 100 else 999
  let is_liquidation_risk := p.liquidation_ltv_pct ≤ ltv1
  let liquidation_months :=
    st.liquidation_months + (if is_liquidation_risk then 1 else 0)
  -- 7) strike ladder (single-fire latch per entry), then the post-strike
  -- LTV and net equity
  let sr := run_strikes spot_price t st.strike_status
    { strike_status := [], btc_collateral := collateral2,
      stablecoin_debt := debt3, stablecoin_reserve := reserve3,
      strike_sold_btc := 0, strike_received_usd := 0,
      strike_debt_repaid := 0, total_debt_repaid := st.total_debt_repaid,
      bonus_active := st.bonus_active, events := [] }
  let collateral_value := sr.btc_collateral * spot_price
  let ltv :=
    if 0 < collateral_value then sr.stablecoin_debt / collateral_value * 100
    else 999
  let net_equity := collateral_value - sr.stablecoin_debt
    + sr.stablecoin_reserve
  { month := t, spot_price := spot_price, hashprice := hashprice,
    btc_produced := btc_produced, opex_usd := opex_usd,
    collateral_value := collateral_value, ltv := ltv,
    is_liquidation_risk := is_liquidation_risk,
    record :=
      { month := t, btc_price_usd := pyRound spot_price 2,
        btc_mined := pyRound btc_produced 8,
        btc_collateral := pyRound sr.btc_collateral 8,
        collateral_value_usd := pyRound collateral_value 2,
        stablecoin_reserve := pyRound sr.stablecoin_reserve 2,
        stablecoin_debt := pyRound sr.stablecoin_debt 2,
        minted_for_opex := pyRound minted_for_opex 2,
        interest_usd := pyRound monthly_interest 2,
        mgmt_fee_usd := pyRound mgmt_fee 2,
        reserve_yield_usd := pyRound reserve_yield 2,
        cumulative_reserve_yield_usd := pyRound total_reserve_yield 2,
        yield_paid_usd := pyRound yield_paid_usd 2,
        yield_from_reserve_usd := pyRound yield_from_reserve 2,
        yield_from_btc_sale_usd := pyRound yield_from_btc_sale 2,
        yield_btc_sold := pyRound yield_btc_sold 8,
        yield_obligation_usd := pyRound yield_obligation_usd 2,
        yield_apr_applied := pyRound current_yield_apr 4,
        yield_fulfillment := pyRound yield_fulfillment 4,
        cumulative_yield_paid_usd := pyRound cumulative_yield_paid 2,
        bonus_yield_active := sr.bonus_active,
        opex_usd := pyRound opex_usd 2,
        opex_from_reserve := pyRound opex_from_reserve 2,
        opex_shortfall := opex_shortfall_flag,
        ltv_pct := pyRound (min ltv 999) 2,
        liquidation_risk := is_liquidation_risk,
        net_equity_usd := pyRound net_equity 2,
        strike_sold_btc := pyRound sr.strike_sold_btc 8,
        strike_received_usd := pyRound sr.strike_received_usd 2,
        strike_debt_repaid := pyRound sr.strike_debt_repaid 2 }
    production :=
      { month := t, btc_price_usd := pyRound spot_price 2,
        btc_produced := pyRound btc_produced 8,
        opex_usd := pyRound opex_usd 2,
        elec_cost_usd := pyRound elec_cost 2,
        hosting_fee_usd := pyRound hosting_fee 2,
        maintenance_usd := pyRound maintenance 2 }
    events := sr.events
    state :=
      { stablecoin_reserve := sr.stablecoin_reserve,
        stablecoin_debt := sr.stablecoin_debt,
        btc_collateral := sr.btc_collateral,
        strike_status := sr.strike_status,
        total_btc_mined := total_btc_mined,
        total_interest_paid := total_interest_paid,
        total_opex_paid := total_opex_paid,
        total_debt_repaid := sr.total_debt_repaid,
        total_mgmt_fees := total_mgmt_fees,
        total_reserve_yield := total_reserve_yield,
        liquidation_months := liquidation_months,
        cumulative_yield_paid := cumulative_yield_paid,
        total_yield_paid := total_yield_paid,
        bonus_active := sr.bonus_active,
        early_close_month := early_close_month } }

/-- The month loop of `simulate_bitcoin_scenario`: `n` months starting at
month index `t` from state `st` (out-of-range list reads default to 0 and
are never used by the caller). -/
def bitcoin_months (p : BitcoinParams) (prices hashprices : List ℚ) :
    ℕ → ℕ → BitcoinState → List BitcoinMonth
  | _, 0, _ => []
  | t, Nat.succ n, st =>
    let w := bitcoin_month p t (prices.getD t 0) (hashprices.getD t 0) st
    w :: bitcoin_months p prices hashprices (t + 1) n w.state

/-- The return value of `simulate_bitcoin_scenario`; the summary `metrics`
dict of the source is a pure aggregation of these lists and is not
referenced by any checked claim, so it is not reproduced here. -/
structure BitcoinResult where
  monthly_data : List BitcoinRecord
  strike_events : List StrikeEvent
  mining_production : List MiningProductionRecord
  strike_ladder_status : List StrikeStatus

/-- Embedding of the month loop and outputs of
`simulate_bitcoin_scenario` from `product_bitcoin.py`. -/
def simulate_bitcoin_scenario (p : BitcoinParams)
    (btc_prices hashprice_btc_per_ph_day : List ℚ) : BitcoinResult :=
  let sim_months := min p.tenor_months
    (min btc_prices.length hashprice_btc_per_ph_day.length)
  let trace := bitcoin_months p btc_prices hashprice_btc_per_ph_day 0
    sim_months (bitcoinInitState p)
  { monthly_data := trace.map (fun w => w.record)
    strike_events := trace.foldl (fun acc w => acc ++ w.events) []
    mining_production := trace.map (fun w => w.production)
    strike_ladder_status :=
      (((trace.getLast?).map (fun w => w.state)).getD
        (bitcoinInitState p)).strike_status }

theorem run_strikes_acc_get (spot : ℚ) (t : ℕ) :
    ∀ (statuses : List StrikeStatus) (acc : StrikeLoopAcc) (j : ℕ),
      j < acc.strike_status.length →
      (run_strikes spot t statuses acc).strike_status[j]?
        = acc.strike_status[j]? := by
  intro statuses
  induction statuses with
  | nil =>
    intro acc j hj
    rfl
  | cons s rest ih =>
    intro acc j hj
    by_cases h1 : s.triggered
    · simp only [run_strikes, if_pos h1]
      rw [ih]
      · exact List.getElem?_append_left hj
      · simp
        omega
    · by_cases h2 : s.strike_price ≤ spot ∧ 0 < acc.btc_collateral
      · simp only [run_strikes, if_neg h1, if_pos h2]
        rw [ih]
        · exact List.getElem?_append_left hj
        · simp
          omega
      · simp only [run_strikes, if_neg h1, if_neg h2]
        rw [ih]
        · exact List.getElem?_append_left hj
        · simp
          omega

theorem run_strikes_triggered_get (spot : ℚ) (t : ℕ) :
    ∀ (statuses : List StrikeStatus) (acc : StrikeLoopAcc) (j : ℕ)
      (s : StrikeStatus),
      statuses[j]? = some s → s.triggered = true →
      (run_strikes spot t statuses acc).strike_status[acc.strike_status.length + j]?
        = some s := by
  intro statuses
  induction statuses with
  | nil =>
    intro acc j s hj _
    simp at hj
  | cons s0 rest ih =>
    intro acc j s hj htrig
    cases j with
    | zero =>
      simp only [List.getElem?_cons_zero, Option.some.injEq] at hj
      subst hj
      simp only [run_strikes, if_pos htrig]
      rw [run_strikes_acc_get spot t rest _ _ (by simp)]
      rw [List.getElem?_append_right (by simp)]
      simp
    | succ j =>
      simp only [List.getElem?_cons_succ] at hj
      by_cases h1 : s0.triggered
      · simp only [run_strikes, if_pos h1]
        convert ih _ j s hj htrig using 2
        simp
        omega
      · by_cases h2 : s0.strike_price ≤ spot ∧ 0 < acc.btc_collateral
        · simp only [run_strikes, if_neg h1, if_pos h2]
          convert ih _ j s hj htrig using 2
          simp
          omega
        · simp only [run_strikes, if_neg h1, if_neg h2]
          convert ih _ j s hj htrig using 2
          simp
          omega

theorem bitcoin_month_triggered_preserved (p : BitcoinParams) (t : ℕ)
    (spot hashprice : ℚ) (st : BitcoinState) (i : ℕ) (s : StrikeStatus)
    (h1 : st.strike_status[i]? = some s) (h2 : s.triggered = true) :
    (bitcoin_month p t spot hashprice st).state.strike_status[i]? = some s := by
  simp only [bitcoin_month]
  convert run_strikes_triggered_get spot t st.strike_status _ i s h1 h2 using 2
  simp

theorem bitcoin_months_pres (p : BitcoinParams) (prices hashprices : List ℚ)
    (P : BitcoinState → Prop)
    (hstep : ∀ (t : ℕ) (spot hp : ℚ) (st : BitcoinState), P st →
      P (bitcoin_month p t spot hp st).state) :
    ∀ (n t : ℕ) (st : BitcoinState), P st →
      ∀ w ∈ bitcoin_months p prices hashprices t n st, P w.state := by
  intro n
  induction n with
  | zero =>
    intro t st _ w hw
    simp [bitcoin_months] at hw
  | succ n ih =>
    intro t st hst w hw
    simp only [bitcoin_months] at hw
    rcases List.mem_cons.mp hw with h | h
    · rw [h]
      exact hstep t _ _ st hst
    · exact ih (t + 1) _ (hstep t _ _ st hst) w h

theorem bitcoin_months_drop (p : BitcoinParams) (prices hashprices : List ℚ) :
    ∀ (n t : ℕ) (st : BitcoinState) (j : ℕ) (w : BitcoinMonth),
      (bitcoin_months p prices hashprices t n st)[j]? = some w →
      (bitcoin_months p prices hashprices t n st).drop (j + 1)
        = bitcoin_months p prices hashprices (t + (j + 1)) (n - (j + 1))
            w.state := by
  intro n
  induction n with
  | zero =>
    intro t st j w hj
    simp [bitcoin_months] at hj
  | succ n ih =>
    intro t st j w hj
    cases j with
    | zero =>
      simp only [bitcoin_months, List.getElem?_cons_zero, Option.some.injEq]
        at hj
      simp only [bitcoin_months, List.drop_succ_cons, List.drop_zero]
      rw [← hj]
      norm_num
    | succ j =>
      simp only [bitcoin_months, List.getElem?_cons_succ] at hj
      simp only [bitcoin_months, List.drop_succ_cons]
      rw [ih (t + 1) _ j w hj,
        show t + 1 + (j + 1) = t + (j + 1 + 1) by omega,
        show n - (j + 1) = n + 1 - (j + 1 + 1) by omega]

theorem bitcoin_months_length (p : BitcoinParams) (prices hashprices : List ℚ) :
    ∀ (n t : ℕ) (st : BitcoinState),
      (bitcoin_months p prices hashprices t n st).length = n := by
  intro n
  induction n with
  | zero =>
    intro t st
    rfl
  | succ n ih =>
    intro t st
    simp only [bitcoin_months, List.length_cons, ih]

/-- C1 amended: in the month loop of `simulate_bitcoin_scenario` (run, as
in the source, for `min(tenor, len(prices), len(hashprices))` months from
the inception state), a strike-ladder entry whose `triggered` flag is true
after some month is permanently inert: at every later month its status
(`btc_sold`, `usd_received`, `debt_repaid`, `trigger_month`, all fields) is
unchanged — it never sells BTC again.  (By contrast the take-profit ladder
of `simulate_product_3y` has no latch; see the counterexample.) -/
theorem strike_ladder_single_fire (p : BitcoinParams)
    (btc_prices hashprices : List ℚ) (j1 j2 i : ℕ)
    (w1 w2 : BitcoinMonth) (s : StrikeStatus)
    (hj : j1 < j2)
    (h1 : (bitcoin_months p btc_prices hashprices 0
      (min p.tenor_months (min btc_prices.length hashprices.length))
      (bitcoinInitState p))[j1]? = some w1)
    (h2 : (bitcoin_months p btc_prices hashprices 0
      (min p.tenor_months (min btc_prices.length hashprices.length))
      (bitcoinInitState p))[j2]? = some w2)
    (hs : w1.state.strike_status[i]? = some s)
    (htrig : s.triggered = true) :
    w2.state.strike_status[i]? = some s := by
  have hdrop := bitcoin_months_drop p btc_prices hashprices
    (min p.tenor_months (min btc_prices.length hashprices.length)) 0
    (bitcoinInitState p) j1 w1 h1
  have hget : ((bitcoin_months p btc_prices hashprices 0
      (min p.tenor_months (min btc_prices.length hashprices.length))
      (bitcoinInitState p)).drop (j1 + 1))[j2 - (j1 + 1)]? = some w2 := by
    rw [List.getElem?_drop, show (j1 + 1) + (j2 - (j1 + 1)) = j2 by omega]
    exact h2
  rw [hdrop] at hget
  rw [List.getElem?_eq_some] at hget
  obtain ⟨hlt, hEq⟩ := hget
  have hw2mem : w2 ∈ bitcoin_months p btc_prices hashprices (0 + (j1 + 1))
      ((min p.tenor_months (min btc_prices.length hashprices.length))
        - (j1 + 1)) w1.state := by
    rw [← hEq]
    exact List.getElem_mem hlt
  exact bitcoin_months_pres p btc_prices hashprices
    (fun st => st.strike_status[i]? = some s)
    (fun t spot hp st hst =>
      bitcoin_month_triggered_preserved p t spot hp st i s hst htrig)
    _ _ _ hs w2 hw2mem

/-- Concrete collateral product: 1000 USD all in BTC at 10 USD, no miners,
one strike entry (trigger 10, sell 50%), two months. -/
def sfParams : BitcoinParams :=
  { capital_raised_usd := 1000, btc_allocation_pct := 100,
    buying_price_usd := 10, collateral_ltv_pct := 0, borrowing_apr := 0,
    liquidation_ltv_pct := 1000, miner_hashrate_th := 0, miner_power_w := 0,
    miner_count := 0, miner_lifetime_months := 60,
    miner_maintenance_pct := 0, miner_price_usd := 0, electricity_rate := 0,
    hosting_fee_per_kw_month := 0, uptime := 1, curtailment_pct := 0,
    tenor_months := 2,
    strike_ladder := [{ strike_price := 10, btc_sell_pct := 50 }],
    reserve_yield_apr := 0, base_yield_apr := 0, bonus_yield_apr := 0,
    early_close_threshold_pct := 0, upfront_commercial_pct := 0,
    management_fees_pct := 0, performance_fees_pct := 0 }

/-- The two-month trace of `sfParams` with spot 100 both months and no
hashprice: the strike fires in month 0. -/
def sfTrace : List BitcoinMonth :=
  bitcoin_months sfParams [100, 100] [0, 0] 0
    (min sfParams.tenor_months (min 2 2)) (bitcoinInitState sfParams)

/-- Month 0 of `sfTrace`. -/
def sfW1 : BitcoinMonth := sfTrace.headI

/-- Month 1 of `sfTrace`. -/
def sfW2 : BitcoinMonth := (sfTrace.drop 1).headI

/-- The strike status after month 0 of `sfTrace` (triggered in month 0). -/
def sfS : StrikeStatus := sfW1.state.strike_status.headI

unseal Rat.mul Rat.add Rat.sub Rat.inv in
/-- Witness for C1 (amended): in the concrete run the strike entry is
triggered after month 0, and `strike_ladder_single_fire` applied at months
0 < 1 shows its status after month 1 is unchanged; every hypothesis is
discharged by evaluation. -/
theorem strike_ladder_single_fire_witness :
    sfW2.state.strike_status[0]? = some sfS :=
  strike_ladder_single_fire sfParams [100, 100] [0, 0] 0 1 0 sfW1 sfW2 sfS
    (by decide) (by decide) (by decide) (by decide) (by decide)

theorem pyRound_999 : pyRound (999 : ℚ) 2 = 999 := by
  unfold pyRound bankersRound
  norm_num

/-- C8: in any month of `simulate_bitcoin_scenario` whose collateral market
value (`btc_collateral * spot_price`, after strikes — in particular
whenever the spot price is zero) is zero, the computed LTV is the fallback
999.0 and the reported `ltv_pct` is the 999.0 cap; no exception is raised:
the month step is total, the month's record is produced, and the
simulation emits exactly `min(tenor, len(prices), len(hashprices))`
monthly records. -/
theorem ltv_zero_collateral_fallback (p : BitcoinParams) (t : ℕ)
    (spot hashprice : ℚ) (st : BitcoinState)
    (hcv : (bitcoin_month p t spot hashprice st).collateral_value = 0) :
    (bitcoin_month p t spot hashprice st).ltv = 999
    ∧ (bitcoin_month p t spot hashprice st).record.ltv_pct = 999
    ∧ ∀ (prices hps : List ℚ),
        (simulate_bitcoin_scenario p prices hps).monthly_data.length
          = min p.tenor_months (min prices.length hps.length) := by
  have hltv : (bitcoin_month p t spot hashprice st).ltv = 999 := by
    simp only [bitcoin_month] at hcv ⊢
    rw [hcv, if_neg (lt_irrefl 0)]
  refine ⟨hltv, ?_, ?_⟩
  · have hrec : (bitcoin_month p t spot hashprice st).record.ltv_pct
        = pyRound (min (bitcoin_month p t spot hashprice st).ltv 999) 2 := by
      simp only [bitcoin_month]
    rw [hrec, hltv, min_self, pyRound_999]
  · intro prices hps
    simp only [simulate_bitcoin_scenario]
    rw [List.length_map, bitcoin_months_length]

unseal Rat.mul Rat.add Rat.sub Rat.inv in
/-- Witness for C8: the zero-spot month 0 of `sfParams` (collateral 100
BTC, spot 0, so the collateral market value is zero), with the hypothesis
of `ltv_zero_collateral_fallback` discharged by evaluation. -/
theorem ltv_zero_collateral_fallback_witness :
    (bitcoin_month sfParams 0 0 0 (bitcoinInitState sfParams)).ltv = 999
    ∧ (bitcoin_month sfParams 0 0 0 (bitcoinInitState sfParams)).record.ltv_pct
        = 999
    ∧ (simulate_bitcoin_scenario sfParams [100, 100] [0, 0]).monthly_data.length
        = min sfParams.tenor_months (min 2 2) := by
  have h := ltv_zero_collateral_fallback sfParams 0 0 0
    (bitcoinInitState sfParams) (by decide)
  exact ⟨h.1, h.2.1, h.2.2 [100, 100] [0, 0]⟩

/-! ## backend/engine/product_multi_bucket.py -/

/-- One entry of a yield APR schedule (`{from_month, to_month, apr}`;
entries are supplied with all keys, so the `dict.get` defaults of the
source are not modelled). -/
structure AprScheduleEntry where
  from_month : ℕ
  to_month : ℕ
  apr : ℚ
deriving DecidableEq

/-- The APR applied in month `t` of the yield bucket: the first schedule
entry whose range contains `t` (the `break` of the source), else the base
APR; an absent or empty schedule (Python falsy) always yields the base. -/
def yield_apr_for_month (base_apr : ℚ)
    (apr_schedule : Option (List AprScheduleEntry)) (t : ℕ) : ℚ :=
  match apr_schedule with
  | none => base_apr
  | some entries =>
    if entries = [] then base_apr
    else
      match entries.find? (fun e => decide (e.from_month ≤ t ∧ t ≤ e.to_month)) with
      | some e => e.apr
      | none => base_apr

/-- One record of the yield bucket's `monthly_data`. -/
structure YieldMonthRecord where
  month : ℕ
  apr_applied : ℚ
  monthly_yield_usd : ℚ
  cumulative_yield_usd : ℚ
  bucket_value_usd : ℚ
deriving DecidableEq, Inhabited

/-- Raw trace of one month of the yield bucket (compounding at the monthly
APR). -/
structure YieldMonth where
  month : ℕ
  cumulative_yield : ℚ
  current_value : ℚ
  record : YieldMonthRecord
deriving DecidableEq, Inhabited

/-- One iteration of the yield-bucket loop. -/
def yield_month_step (base_apr : ℚ)
    (apr_schedule : Option (List AprScheduleEntry)) (t : ℕ)
    (cumulative current : ℚ) : YieldMonth :=
  let apr := yield_apr_for_month base_apr apr_schedule t
  let monthly_yield := current * (apr / 12)
  let cumulative2 := cumulative + monthly_yield
  let current2 := current + monthly_yield
  { month := t
    cumulative_yield := cumulative2
    current_value := current2
    record :=
      { month := t
        apr_applied := pyRound apr 4
        monthly_yield_usd := pyRound monthly_yield 2
        cumulative_yield_usd := pyRound cumulative2 2
        bucket_value_usd := pyRound current2 2 } }

/-- The yield-bucket month loop. -/
def yield_months (base_apr : ℚ)
    (apr_schedule : Option (List AprScheduleEntry)) :
    ℕ → ℕ → ℚ → ℚ → List YieldMonth
  | _, 0, _, _ => []
  | t, Nat.succ n, cumulative, current =>
    let w := yield_month_step base_apr apr_schedule t cumulative current
    w :: yield_months base_apr apr_schedule (t + 1) n w.cumulative_yield
      w.current_value

/-- The `metrics` of the yield bucket. -/
structure YieldBucketMetrics where
  allocated_usd : ℚ
  final_value_usd : ℚ
  total_yield_usd : ℚ
  effective_apr : ℚ
deriving DecidableEq, Inhabited

/-- The return value of `simulate_yield_bucket`. -/
structure YieldBucketResult where
  monthly_data : List YieldMonthRecord
  metrics : YieldBucketMetrics
deriving DecidableEq, Inhabited

/-- Embedding of `simulate_yield_bucket` from `product_multi_bucket.py`. -/
def simulate_yield_bucket (allocated_usd base_apr : ℚ)
    (apr_schedule : Option (List AprScheduleEntry)) (tenor_months : ℕ) :
    YieldBucketResult :=
  let trace := yield_months base_apr apr_schedule 0 tenor_months 0
    allocated_usd
  let final_cum := ((trace.getLast?).map (fun w => w.cumulative_yield)).getD 0
  let final_cur :=
    ((trace.getLast?).map (fun w => w.current_value)).getD allocated_usd
  let effective_apr :=
    if 0 < allocated_usd ∧ 0 < tenor_months then
      (final_cum / allocated_usd) / ((tenor_months : ℚ) / 12)
    else 0
  { monthly_data := trace.map (fun w => w.record)
    metrics :=
      { allocated_usd := pyRound allocated_usd 2
        final_value_usd := pyRound final_cur 2
        total_yield_usd := pyRound final_cum 2
        effective_apr := pyRound effective_apr 4 } }

/-- One entry of the holding bucket's extra-yield strike ladder
(`{strike_price, btc_share_pct}`). -/
structure ExtraYieldStrike where
  strike_price : ℚ
  btc_share_pct : ℚ
deriving DecidableEq

/-- One element of the holding bucket's strike tracking list (single-fire
via the `sold` flag). -/
structure HoldingStrikeStatus where
  strike_price : ℚ
  btc_amount : ℚ
  sold : Bool
  sell_month : Option ℕ
  realized_usd : ℚ
deriving DecidableEq, Inhabited

/-- The mutable state of the holding-bucket month loop. -/
structure HoldingState where
  recon_sold : Bool
  recon_sell_month : Option ℕ
  recon_sell_price : Option ℚ
  recon_realized : ℚ
  strike_status : List HoldingStrikeStatus
  total_extra_yield_realized : ℚ
deriving DecidableEq, Inhabited

/-- The extra-yield strike loop of the holding bucket: each unsold entry
with positive BTC whose strike the spot reaches sells in full, once.
Returns the updated status list, the updated total realized, and this
month's realized amount. -/
def run_holding_strikes (spot : ℚ) (t : ℕ) :
    List HoldingStrikeStatus → ℚ → ℚ → List HoldingStrikeStatus × ℚ × ℚ
  | [], total_realized, extra_this_month =>
    ([], total_realized, extra_this_month)
  | s :: rest, total_realized, extra_this_month =>
    if s.sold = false ∧ 0 < s.btc_amount ∧ s.strike_price ≤ spot then
      let realized := s.btc_amount * spot
      let s' := { s with
        sold := true
        sell_month := some t
        realized_usd := realized }
      let r := run_holding_strikes spot t rest (total_realized + realized)
        (extra_this_month + realized)
      (s' :: r.1, r.2)
    else
      let r := run_holding_strikes spot t rest total_realized
        extra_this_month
      (s :: r.1, r.2)

/-- One record of the holding bucket's `monthly_data`. -/
structure HoldingMonthRecord where
  month : ℕ
  btc_price_usd : ℚ
  btc_quantity : ℚ
  capital_recon_btc : ℚ
  extra_yield_btc : ℚ
  bucket_value_usd : ℚ
  unrealized_pnl_usd : ℚ
  recon_realized_usd : ℚ
  extra_yield_realized_usd : ℚ
  extra_yield_this_month_usd : ℚ
  recon_sold : Bool
deriving DecidableEq, Inhabited

/-- Raw trace of one month of the holding bucket.  As in the source,
`remaining_extra_btc` is computed before this month's strike sales and is
not refreshed afterwards. -/
structure HoldingMonth where
  month : ℕ
  spot : ℚ
  remaining_recon_btc : ℚ
  remaining_extra_btc : ℚ
  extra_yield_this_month : ℚ
  record : HoldingMonthRecord
  state : HoldingState
deriving DecidableEq, Inhabited

/-- One iteration of the holding-bucket month loop: capital-reconstitution
check (single-fire, first month spot reaches the target), then the
extra-yield strikes, then the mark-to-market record. -/
def holding_month (buying_price target_sell_price capital_recon_btc : ℚ)
    (t : ℕ) (spot : ℚ) (st : HoldingState) : HoldingMonth :=
  let remaining_recon0 := if st.recon_sold then 0 else capital_recon_btc
  let remaining_extra :=
    ((st.strike_status.filter (fun s => s.sold = false)).map
      (fun s => s.btc_amount)).sum
  let recon_fires := st.recon_sold = false ∧ 0 < capital_recon_btc
    ∧ target_sell_price ≤ spot
  let recon_sold := if recon_fires then true else st.recon_sold
  let recon_sell_month := if recon_fires then some t else st.recon_sell_month
  let recon_sell_price :=
    if recon_fires then some spot else st.recon_sell_price
  let recon_realized :=
    if recon_fires then capital_recon_btc * spot else st.recon_realized
  let remaining_recon := if recon_fires then 0 else remaining_recon0
  let rs := run_holding_strikes spot t st.strike_status
    st.total_extra_yield_realized 0
  let strike_status2 := rs.1
  let total_extra := rs.2.1
  let extra_this_month := rs.2.2
  let unsold_btc := remaining_recon + remaining_extra
  let current_value := unsold_btc * spot + recon_realized + total_extra
  let unrealized_pnl :=
    if 0 < unsold_btc then unsold_btc * spot - unsold_btc * buying_price
    else 0
  { month := t
    spot := spot
    remaining_recon_btc := remaining_recon
    remaining_extra_btc := remaining_extra
    extra_yield_this_month := extra_this_month
    record :=
      { month := t
        btc_price_usd := pyRound spot 2
        btc_quantity := pyRound unsold_btc 8
        capital_recon_btc := pyRound remaining_recon 8
        extra_yield_btc := pyRound remaining_extra 8
        bucket_value_usd := pyRound current_value 2
        unrealized_pnl_usd := pyRound unrealized_pnl 2
        recon_realized_usd := pyRound recon_realized 2
        extra_yield_realized_usd := pyRound total_extra 2
        extra_yield_this_month_usd := pyRound extra_this_month 2
        recon_sold := recon_sold }
    state :=
      { recon_sold := recon_sold
        recon_sell_month := recon_sell_month
        recon_sell_price := recon_sell_price
        recon_realized := recon_realized
        strike_status := strike_status2
        total_extra_yield_realized := total_extra } }

/-- The holding-bucket month loop. -/
def holding_months (buying_price target_sell_price capital_recon_btc : ℚ)
    (btc_prices : List ℚ) :
    ℕ → ℕ → HoldingState → List HoldingMonth
  | _, 0, _ => []
  | t, Nat.succ n, st =>
    let w := holding_month buying_price target_sell_price capital_recon_btc
      t (btc_prices.getD t 0) st
    w :: holding_months buying_price target_sell_price capital_recon_btc
      btc_prices (t + 1) n w.state

/-- The `metrics` of the holding bucket (the `sell_price_usd` entry is
`None` when the stored price is `None` or zero, following the Python
truthiness test). -/
structure HoldingMetrics where
  allocated_usd : ℚ
  buying_price_usd : ℚ
  target_sell_price_usd : ℚ
  btc_quantity : ℚ
  capital_recon_pct : ℚ
  capital_recon_btc : ℚ
  target_hit : Bool
  sell_month : Option ℕ
  sell_price_usd : Option ℚ
  recon_realized_usd : ℚ
  extra_yield_btc : ℚ
  extra_yield_strikes : List HoldingStrikeStatus
  extra_yield_total_usd : ℚ
  final_value_usd : ℚ
  total_return_pct : ℚ
deriving DecidableEq, Inhabited

/-- The return value of `simulate_btc_holding_bucket`. -/
structure HoldingResult where
  monthly_data : List HoldingMonthRecord
  metrics : HoldingMetrics
deriving DecidableEq, Inhabited

/-- Embedding of `simulate_btc_holding_bucket` from
`product_multi_bucket.py` (a non-positive buying price is clamped to 1, as
in the source's safety guard). -/
def simulate_btc_holding_bucket (allocated_usd buying_price_usd
    target_sell_price_usd : ℚ) (btc_prices : List ℚ) (tenor_months : ℕ)
    (capital_recon_pct : ℚ)
    (extra_yield_strikes : Option (List ExtraYieldStrike)) : HoldingResult :=
  let buying_price := if buying_price_usd ≤ 0 then 1 else buying_price_usd
  let strikes := extra_yield_strikes.getD []
  let total_btc := allocated_usd / buying_price
  let capital_recon_btc := total_btc * (capital_recon_pct / 100)
  let extra_yield_btc := total_btc * ((100 - capital_recon_pct) / 100)
  let init : HoldingState :=
    { recon_sold := false, recon_sell_month := none,
      recon_sell_price := none, recon_realized := 0,
      strike_status := strikes.map (fun s =>
        { strike_price := s.strike_price,
          btc_amount := extra_yield_btc * (s.btc_share_pct / 100),
          sold := false, sell_month := none, realized_usd := 0 }),
      total_extra_yield_realized := 0 }
  let sim_months := min tenor_months btc_prices.length
  let trace := holding_months buying_price target_sell_price_usd
    capital_recon_btc btc_prices 0 sim_months init
  let final := ((trace.getLast?).map (fun w => w.state)).getD init
  let final_unsold_btc :=
    (if final.recon_sold then 0 else capital_recon_btc)
      + ((final.strike_status.filter (fun s => s.sold = false)).map
          (fun s => s.btc_amount)).sum
  let final_spot :=
    if 0 < sim_months then btc_prices.getD (sim_months - 1) 0
    else buying_price
  let final_value := final_unsold_btc * final_spot + final.recon_realized
    + final.total_extra_yield_realized
  let total_return_pct :=
    if 0 < allocated_usd then (final_value - allocated_usd) / allocated_usd
    else 0
  { monthly_data := trace.map (fun w => w.record)
    metrics :=
      { allocated_usd := pyRound allocated_usd 2
        buying_price_usd := pyRound buying_price 2
        target_sell_price_usd := pyRound target_sell_price_usd 2
        btc_quantity := pyRound total_btc 8
        capital_recon_pct := pyRound capital_recon_pct 2
        capital_recon_btc := pyRound capital_recon_btc 8
        target_hit := final.recon_sold
        sell_month := final.recon_sell_month
        sell_price_usd :=
          match final.recon_sell_price with
          | some pr => if pr = 0 then none else some (pyRound pr 2)
          | none => none
        recon_realized_usd := pyRound final.recon_realized 2
        extra_yield_btc := pyRound extra_yield_btc 8
        extra_yield_strikes := final.strike_status
        extra_yield_total_usd := pyRound final.total_extra_yield_realized 2
        final_value_usd := pyRound final_value 2
        total_return_pct := pyRound total_return_pct 4 } }

/-- Embedding of `simulate_mining_bucket`: a thin wrapper delegating to the
waterfall engine, passing the holding bucket's `sell_month` through as
`holding_sell_month` (calibration factors keep their defaults of 1). -/
def simulate_mining_bucket (allocated_usd : ℚ)
    (btc_prices hashprice_btc_per_ph_day : List ℚ)
    (miner_hashrate_th miner_power_w : ℚ)
    (miner_count miner_lifetime_months : ℤ)
    (miner_maintenance_pct electricity_rate hosting_fee_per_kw_month
      uptime curtailment_pct : ℚ)
    (tenor_months : ℕ) (base_yield_apr bonus_yield_apr : ℚ)
    (holding_sell_month : Option ℕ)
    (take_profit_ladder : Option (List TakeProfitEntry)) : WaterfallResult :=
  simulate_product_3y
    { miner_hashrate_th := miner_hashrate_th
      miner_power_w := miner_power_w
      miner_count := miner_count
      miner_lifetime_months := miner_lifetime_months
      miner_maintenance_pct := miner_maintenance_pct
      electricity_rate := electricity_rate
      hosting_fee_per_kw_month := hosting_fee_per_kw_month
      uptime := uptime
      curtailment_pct := curtailment_pct
      capital_raised_usd := allocated_usd
      product_tenor_months := tenor_months
      base_yield_apr := base_yield_apr
      bonus_yield_apr := bonus_yield_apr
      holding_sell_month := holding_sell_month
      calibration_uptime_factor := 1
      calibration_production_adj := 1
      take_profit_ladder := take_profit_ladder.getD [] }
    btc_prices hashprice_btc_per_ph_day

/-- The proportional breakdown of the upfront commercial fee. -/
structure UpfrontBreakdown where
  yield_deduction_usd : ℚ
  holding_deduction_usd : ℚ
  mining_deduction_usd : ℚ
deriving DecidableEq, Inhabited

/-- The return value of `calculate_commercial_fees` (the empty breakdown
dict of the source is `none`). -/
structure CommercialFeesResult where
  upfront_fee_usd : ℚ
  upfront_fee_breakdown : Option UpfrontBreakdown
  management_fees_monthly : List ℚ
  management_fees_total_usd : ℚ
  performance_fee_usd : ℚ
  performance_fee_base_usd : ℚ
  total_commercial_value_usd : ℚ
deriving DecidableEq, Inhabited

/-- Embedding of `calculate_commercial_fees` from
`product_multi_bucket.py`. -/
def calculate_commercial_fees (capital_raised_usd : ℚ) (tenor_months : ℕ)
    (upfront_commercial_pct management_fees_pct performance_fees_pct : ℚ)
    (capitalization_monthly_usd : List ℚ)
    (yield_allocated holding_allocated mining_allocated : ℚ) :
    CommercialFeesResult :=
  let total_allocation := yield_allocated + holding_allocated
    + mining_allocated
  let hasUpfront := 0 < upfront_commercial_pct ∧ 0 < total_allocation
  let upfront_total := capital_raised_usd * (upfront_commercial_pct / 100)
  let upfront_fee_usd := if hasUpfront then pyRound upfront_total 2 else 0
  let upfront_fee_breakdown :=
    if hasUpfront then
      some { yield_deduction_usd :=
               pyRound (upfront_total * (yield_allocated / total_allocation)) 2
             holding_deduction_usd :=
               pyRound (upfront_total * (holding_allocated / total_allocation)) 2
             mining_deduction_usd :=
               pyRound (upfront_total * (mining_allocated / total_allocation)) 2 }
    else none
  let hasMgmt := 0 < management_fees_pct
    ∧ 0 < capitalization_monthly_usd.length
  let mgmt_monthly :=
    if hasMgmt then
      capitalization_monthly_usd.map (fun cap_usd =>
        pyRound (min (capital_raised_usd * (management_fees_pct / 100 / 12))
          (max 0 cap_usd)) 2)
    else []
  let mgmt_total := if hasMgmt then pyRound mgmt_monthly.sum 2 else 0
  let hasPerf := 0 < performance_fees_pct
    ∧ 0 < capitalization_monthly_usd.length
  let final_capitalization := (capitalization_monthly_usd.getLast?).getD 0
  let overhead := max 0 (final_capitalization - mining_allocated)
  let performance_fee_usd :=
    if hasPerf ∧ 0 < overhead then
      pyRound (overhead * (performance_fees_pct / 100)) 2
    else 0
  let performance_fee_base_usd :=
    if hasPerf ∧ 0 < overhead then pyRound overhead 2 else 0
  { upfront_fee_usd := upfront_fee_usd
    upfront_fee_breakdown := upfront_fee_breakdown
    management_fees_monthly := mgmt_monthly
    management_fees_total_usd := mgmt_total
    performance_fee_usd := performance_fee_usd
    performance_fee_base_usd := performance_fee_base_usd
    total_commercial_value_usd :=
      pyRound (upfront_fee_usd + mgmt_total + performance_fee_usd) 2 }

/-- Parameters of `simulate_single_scenario` (the source's keyword
arguments, gathered into a structure). -/
structure SingleScenarioParams where
  capital_raised_usd : ℚ
  tenor_months : ℕ
  yield_allocated_usd : ℚ
  yield_base_apr : ℚ
  yield_apr_schedule : Option (List AprScheduleEntry)
  holding_allocated_usd : ℚ
  holding_buying_price : ℚ
  holding_target_sell_price : ℚ
  mining_allocated_usd : ℚ
  miner_hashrate_th : ℚ
  miner_power_w : ℚ
  miner_count : ℤ
  miner_lifetime_months : ℤ
  miner_maintenance_pct : ℚ
  electricity_rate : ℚ
  hosting_fee_per_kw_month : ℚ
  uptime : ℚ
  curtailment_pct : ℚ
  mining_base_yield_apr : ℚ
  mining_bonus_yield_apr : ℚ
  holding_capital_recon_pct : ℚ
  holding_extra_yield_strikes : Option (List ExtraYieldStrike)
  mining_take_profit_ladder : Option (List TakeProfitEntry)
  upfront_commercial_pct : ℚ
  management_fees_pct : ℚ
  performance_fees_pct : ℚ
deriving DecidableEq

/-- The sum of the three original bucket allocations. -/
def scenario_total_alloc (sp : SingleScenarioParams) : ℚ :=
  sp.yield_allocated_usd + sp.holding_allocated_usd + sp.mining_allocated_usd

/-- The upfront-fee deduction applied proportionally to a bucket
allocation before simulation (identity when there is no upfront fee or the
total allocation is not positive). -/
def scenario_adjusted_alloc (sp : SingleScenarioParams) (a : ℚ) : ℚ :=
  if 0 < sp.upfront_commercial_pct ∧ 0 < scenario_total_alloc sp then
    a - sp.capital_raised_usd * (sp.upfront_commercial_pct / 100)
      * (a / scenario_total_alloc sp)
  else a

/-- The holding bucket run of the orchestrator (run first, as in the
source, so that its `sell_month` can be passed to the mining bucket). -/
def scenario_holding_result (sp : SingleScenarioParams)
    (btc_prices : List ℚ) : HoldingResult :=
  simulate_btc_holding_bucket
    (scenario_adjusted_alloc sp sp.holding_allocated_usd)
    sp.holding_buying_price sp.holding_target_sell_price btc_prices
    sp.tenor_months sp.holding_capital_recon_pct
    sp.holding_extra_yield_strikes

/-- The cross-bucket signal: the holding bucket's reconstitution sell
month (`None` when the target was never hit). -/
def scenario_holding_sell_month (sp : SingleScenarioParams)
    (btc_prices : List ℚ) : Option ℕ :=
  (scenario_holding_result sp btc_prices).metrics.sell_month

/-- The waterfall parameters with which the orchestrator invokes the
mining bucket: the upfront-adjusted mining allocation as capital, and the
holding bucket's sell month as `holding_sell_month`. -/
def scenario_mining_params (sp : SingleScenarioParams)
    (btc_prices : List ℚ) : WaterfallParams :=
  { miner_hashrate_th := sp.miner_hashrate_th
    miner_power_w := sp.miner_power_w
    miner_count := sp.miner_count
    miner_lifetime_months := sp.miner_lifetime_months
    miner_maintenance_pct := sp.miner_maintenance_pct
    electricity_rate := sp.electricity_rate
    hosting_fee_per_kw_month := sp.hosting_fee_per_kw_month
    uptime := sp.uptime
    curtailment_pct := sp.curtailment_pct
    capital_raised_usd := scenario_adjusted_alloc sp sp.mining_allocated_usd
    product_tenor_months := sp.tenor_months
    base_yield_apr := sp.mining_base_yield_apr
    bonus_yield_apr := sp.mining_bonus_yield_apr
    holding_sell_month := scenario_holding_sell_month sp btc_prices
    calibration_uptime_factor := 1
    calibration_production_adj := 1
    take_profit_ladder := sp.mining_take_profit_ladder.getD [] }

/-- One record of the aggregated `monthly_portfolio`. -/
structure PortfolioMonthRecord where
  month : ℕ
  yield_value_usd : ℚ
  holding_value_usd : ℚ
  mining_value_usd : ℚ
  total_portfolio_usd : ℚ
deriving DecidableEq, Inhabited

/-- The aggregated portfolio metrics of a scenario run. -/
structure AggregatedMetrics where
  capital_raised_usd : ℚ
  final_portfolio_usd : ℚ
  total_return_pct : ℚ
  total_yield_paid_usd : ℚ
  effective_apr : ℚ
  capital_preservation_ratio : ℚ
  gross_final_portfolio_usd : ℚ
  gross_total_return_pct : ℚ
deriving DecidableEq, Inhabited

/-- The `aggregated` block of a scenario run.  The decision mirrors the
mining bucket's decision, as in the source.  (The `btc_under_management`
record list and its summary metrics are presentation-only aggregates of
the three bucket outputs and are not referenced by any checked claim, so
they are not reproduced here.) -/
structure Aggregated where
  monthly_portfolio : List PortfolioMonthRecord
  metrics : AggregatedMetrics
  decision : String
  decision_reasons : List String

/-- The return value of `simulate_single_scenario`. -/
structure SingleScenarioResult where
  yield_bucket : YieldBucketResult
  btc_holding_bucket : HoldingResult
  mining_bucket : WaterfallResult
  commercial : Option CommercialFeesResult
  aggregated : Aggregated

/-- Embedding of `simulate_single_scenario` from
`product_multi_bucket.py`: upfront-fee deduction, the three bucket runs
(holding before mining, to extract `sell_month`), portfolio aggregation,
commercial fees and the mirrored decision. -/
def simulate_single_scenario (sp : SingleScenarioParams)
    (btc_prices hashprice_btc_per_ph_day : List ℚ) : SingleScenarioResult :=
  let yield_result := simulate_yield_bucket
    (scenario_adjusted_alloc sp sp.yield_allocated_usd) sp.yield_base_apr
    sp.yield_apr_schedule sp.tenor_months
  let holding_result := scenario_holding_result sp btc_prices
  let mining_result := simulate_mining_bucket
    (scenario_adjusted_alloc sp sp.mining_allocated_usd) btc_prices
    hashprice_btc_per_ph_day sp.miner_hashrate_th sp.miner_power_w
    sp.miner_count sp.miner_lifetime_months sp.miner_maintenance_pct
    sp.electricity_rate sp.hosting_fee_per_kw_month sp.uptime
    sp.curtailment_pct sp.tenor_months sp.mining_base_yield_apr
    sp.mining_bonus_yield_apr holding_result.metrics.sell_month
    sp.mining_take_profit_ladder
  let sim_months := min sp.tenor_months btc_prices.length
  let capitalization_monthly_usd := (List.range sim_months).map (fun t =>
    match mining_result.monthly_waterfall[t]? with
    | some r => r.capitalization_usd
    | none => 0)
  let monthly_portfolio := (List.range sim_months).map (fun t =>
    let y_val :=
      match yield_result.monthly_data[t]? with
      | some r => r.bucket_value_usd
      | none => 0
    let h_val :=
      match holding_result.monthly_data[t]? with
      | some r => r.bucket_value_usd
      | none => 0
    let m_val :=
      match mining_result.monthly_waterfall[t]? with
      | some r => r.capitalization_usd
      | none => 0
    { month := t
      yield_value_usd := pyRound y_val 2
      holding_value_usd := pyRound h_val 2
      mining_value_usd := pyRound m_val 2
      total_portfolio_usd := pyRound (y_val + h_val + m_val) 2 })
  let has_commercial := 0 < sp.upfront_commercial_pct
    ∨ 0 < sp.management_fees_pct ∨ 0 < sp.performance_fees_pct
  let commercial_result :=
    if has_commercial then
      some (calculate_commercial_fees sp.capital_raised_usd sp.tenor_months
        sp.upfront_commercial_pct sp.management_fees_pct
        sp.performance_fees_pct capitalization_monthly_usd
        sp.yield_allocated_usd sp.holding_allocated_usd
        sp.mining_allocated_usd)
    else none
  let gross_final := yield_result.metrics.final_value_usd
    + holding_result.metrics.final_value_usd
    + mining_result.metrics.capitalization_usd_final
  let commercial_deductions :=
    match commercial_result with
    | some c => c.management_fees_total_usd + c.performance_fee_usd
    | none => 0
  let total_final_net := gross_final - commercial_deductions
  let total_return_pct_net :=
    if 0 < sp.capital_raised_usd then
      (total_final_net - sp.capital_raised_usd) / sp.capital_raised_usd
    else 0
  let total_return_pct_gross :=
    if 0 < sp.capital_raised_usd then
      (gross_final - sp.capital_raised_usd) / sp.capital_raised_usd
    else 0
  let total_yield_paid := yield_result.metrics.total_yield_usd
    + mining_result.metrics.cumulative_yield_paid_usd
  let effective_apr_net :=
    if 0 < sp.capital_raised_usd ∧ 0 < sim_months then
      (total_yield_paid / sp.capital_raised_usd) / ((sim_months : ℚ) / 12)
    else 0
  { yield_bucket := yield_result
    btc_holding_bucket := holding_result
    mining_bucket := mining_result
    commercial := commercial_result
    aggregated :=
      { monthly_portfolio := monthly_portfolio
        metrics :=
          { capital_raised_usd := pyRound sp.capital_raised_usd 2
            final_portfolio_usd := pyRound total_final_net 2
            total_return_pct := pyRound total_return_pct_net 4
            total_yield_paid_usd := pyRound total_yield_paid 2
            effective_apr := pyRound effective_apr_net 4
            capital_preservation_ratio :=
              if 0 < sp.capital_raised_usd then
                pyRound (total_final_net / sp.capital_raised_usd) 4
              else 0
            gross_final_portfolio_usd := pyRound gross_final 2
            gross_total_return_pct := pyRound total_return_pct_gross 4 }
        decision := mining_result.decision
        decision_reasons := mining_result.decision_reasons } }

/-- C4: the orchestrator's mining bucket is exactly the waterfall run whose
`holding_sell_month` is the holding bucket's reconstitution sell month
(`None` when the target was never hit); and for every non-deficit (GREEN)
month `t` the waterfall pays
`yield_paid_usd = min(surplus BTC * spot, capital * APR(t)/12)` where
`APR(t) = base + bonus` once the signal exists and `t` is at or after it,
else `base`. -/
theorem mining_yield_cap_cross_bucket (sp : SingleScenarioParams)
    (btc_prices hashprices : List ℚ) (t : ℕ) (spot hashprice : ℚ)
    (st : WaterfallState)
    (hgreen : ¬ (wf_btc_produced (scenario_mining_params sp btc_prices)
        hashprice
      < wf_btc_for_opex (scenario_mining_params sp btc_prices) spot hashprice
        * (19/20))) :
    (simulate_single_scenario sp btc_prices hashprices).mining_bucket
      = simulate_product_3y (scenario_mining_params sp btc_prices)
          btc_prices hashprices
    ∧ (scenario_mining_params sp btc_prices).holding_sell_month
      = (scenario_holding_result sp btc_prices).metrics.sell_month
    ∧ (waterfall_month (scenario_mining_params sp btc_prices) t spot
        hashprice st).yield_paid_usd
      = min ((wf_btc_produced (scenario_mining_params sp btc_prices) hashprice
            - min (wf_btc_produced (scenario_mining_params sp btc_prices)
                hashprice)
              (wf_btc_for_opex (scenario_mining_params sp btc_prices) spot
                hashprice)) * spot)
          ((scenario_mining_params sp btc_prices).capital_raised_usd
            * (wf_current_apr (scenario_mining_params sp btc_prices) t / 12))
    ∧ wf_current_apr (scenario_mining_params sp btc_prices) t
      = (match scenario_holding_sell_month sp btc_prices with
         | some hsm =>
           if hsm ≤ t then
             sp.mining_base_yield_apr + sp.mining_bonus_yield_apr
           else sp.mining_base_yield_apr
         | none => sp.mining_base_yield_apr) := by
  refine ⟨?_, ?_, ?_, ?_⟩
  · rfl
  · rfl
  · simp only [waterfall_month, if_neg hgreen]
  · rfl

/-- Concrete orchestrator configuration: the holding bucket buys at 10
with target 50, the mining bucket has a zero-cost 1000 TH fleet, spot is
100 in both months (so the holding target is struck in month 0 and the
bonus APR applies from month 0). -/
def c4Params : SingleScenarioParams :=
  { capital_raised_usd := 3000
    tenor_months := 2
    yield_allocated_usd := 1000
    yield_base_apr := 1/20
    yield_apr_schedule := none
    holding_allocated_usd := 1000
    holding_buying_price := 10
    holding_target_sell_price := 50
    mining_allocated_usd := 1000
    miner_hashrate_th := 1000
    miner_power_w := 0
    miner_count := 1
    miner_lifetime_months := 60
    miner_maintenance_pct := 0
    electricity_rate := 0
    hosting_fee_per_kw_month := 0
    uptime := 1
    curtailment_pct := 0
    mining_base_yield_apr := 2/25
    mining_bonus_yield_apr := 1/25
    holding_capital_recon_pct := 100
    holding_extra_yield_strikes := none
    mining_take_profit_ladder := none
    upfront_commercial_pct := 0
    management_fees_pct := 0
    performance_fees_pct := 0 }

unseal Rat.mul Rat.add Rat.sub Rat.inv in
/-- Witness for C4: `mining_yield_cap_cross_bucket` applied to `c4Params`
at the GREEN month 0 (spot 100, hashprice 1), with every hypothesis
discharged by evaluation. -/
theorem mining_yield_cap_cross_bucket_witness :
    (simulate_single_scenario c4Params [100, 100] [1, 1]).mining_bucket
      = simulate_product_3y (scenario_mining_params c4Params [100, 100])
          [100, 100] [1, 1]
    ∧ (scenario_mining_params c4Params [100, 100]).holding_sell_month
      = (scenario_holding_result c4Params [100, 100]).metrics.sell_month
    ∧ (waterfall_month (scenario_mining_params c4Params [100, 100]) 0 100 1
        waterfallInitState).yield_paid_usd
      = min ((wf_btc_produced (scenario_mining_params c4Params [100, 100]) 1
            - min (wf_btc_produced (scenario_mining_params c4Params [100, 100]) 1)
              (wf_btc_for_opex (scenario_mining_params c4Params [100, 100]) 100
                1)) * 100)
          ((scenario_mining_params c4Params [100, 100]).capital_raised_usd
            * (wf_current_apr (scenario_mining_params c4Params [100, 100]) 0 / 12))
    ∧ wf_current_apr (scenario_mining_params c4Params [100, 100]) 0
      = (match scenario_holding_sell_month c4Params [100, 100] with
         | some hsm =>
           if hsm ≤ 0 then
             c4Params.mining_base_yield_apr + c4Params.mining_bonus_yield_apr
           else c4Params.mining_base_yield_apr
         | none => c4Params.mining_base_yield_apr) :=
  mining_yield_cap_cross_bucket c4Params [100, 100] [1, 1] 0 100 1
    waterfallInitState (by decide)

/-! ## backend/routers/product_config.py — simulate_product -/

/-- A stored BTC price curve as the handler reads it (`monthly_prices`
plus the `confidence_band_pct` of its input snapshot, 0 when absent). -/
structure BTCPriceCurveRec where
  monthly_prices : List ℚ
  confidence_band_pct : ℚ
deriving DecidableEq

/-- A stored network curve as the handler reads it. -/
structure NetworkCurveRec where
  hashprice_btc_per_ph_day : List ℚ
  confidence_band_pct : ℚ
deriving DecidableEq

/-- Embedding of `_apply_btc_band`: when the same BTC curve is reused for
all scenarios, bear/bull get the stored confidence band applied (a missing
or non-positive band leaves prices unchanged). -/
def apply_btc_band (prices : List ℚ) (curve : BTCPriceCurveRec)
    (scenario : String) : List ℚ :=
  if scenario = "base" then prices
  else if curve.confidence_band_pct ≤ 0 then prices
  else
    let band := curve.confidence_band_pct / 100
    if scenario = "bear" then
      prices.map (fun pr => pyRound (pr * (1 - band)) 2)
    else if scenario = "bull" then
      prices.map (fun pr => pyRound (pr * (1 + band)) 2)
    else prices

/-- Embedding of `_apply_net_band` (round to 10 decimals). -/
def apply_net_band (hashprices : List ℚ) (curve : NetworkCurveRec)
    (scenario : String) : List ℚ :=
  if scenario = "base" then hashprices
  else if curve.confidence_band_pct ≤ 0 then hashprices
  else
    let band := curve.confidence_band_pct / 100
    if scenario = "bear" then
      hashprices.map (fun hp => pyRound (hp * (1 - band)) 10)
    else if scenario = "bull" then
      hashprices.map (fun hp => pyRound (hp * (1 + band)) 10)
    else hashprices

/-- A stored miner record as the handler reads it. -/
structure MinerRec where
  hashrate_th : ℚ
  power_w : ℚ
  lifetime_months : ℤ
  maintenance_pct : ℚ
deriving DecidableEq

/-- A stored hosting-site record as the handler reads it. -/
structure HostingSiteRec where
  electricity_price_usd_per_kwh : ℚ
  hosting_fee_usd_per_kw_month : ℚ
  uptime_expectation : ℚ
  curtailment_pct : ℚ
deriving DecidableEq

/-- The database session, modelled as lookup functions keyed by numeric
identifiers (the string ids of the source are opaque keys). -/
structure Db where
  btcCurves : ℕ → Option BTCPriceCurveRec
  netCurves : ℕ → Option NetworkCurveRec
  miners : ℕ → Option MinerRec
  sites : ℕ → Option HostingSiteRec

/-- The per-scenario curve id maps (`{"bear": id, "base": id, "bull": id}`;
a missing key is `none`). -/
structure ScenarioIds where
  bear : Option ℕ
  base : Option ℕ
  bull : Option ℕ
deriving DecidableEq

/-- The yield-bucket part of the request. -/
structure YieldBucketReq where
  allocated_usd : ℚ
  base_apr : ℚ
  apr_schedule : Option (List AprScheduleEntry)
deriving DecidableEq

/-- The holding-bucket part of the request, exactly as `schemas.py`'s
`BtcHoldingBucketConfig` declares it: `allocated_usd`, `buying_price_usd`
and the optional `target_sell_price_usd`, and nothing else.  In
particular the pydantic model declares no `capital_recon_pct` and no
`extra_yield_strikes`, although the handler later reads both. -/
structure HoldingBucketReq where
  allocated_usd : ℚ
  buying_price_usd : ℚ
  target_sell_price_usd : Option ℚ
deriving DecidableEq

/-- The mining-bucket part of the request (`MiningBucketConfig`; the
string ids are opaque numeric keys here). -/
structure MiningBucketReq where
  allocated_usd : ℚ
  miner_id : ℕ
  hosting_site_id : ℕ
  miner_count : ℤ
  base_yield_apr : ℚ
  bonus_yield_apr : ℚ
  take_profit_ladder : List TakeProfitEntry
deriving DecidableEq

/-- The commercial-fee configuration shape the handler expects to find at
`req.commercial` (no such field exists on the request model; see
`read_req_commercial`). -/
structure CommercialReq where
  upfront_commercial_pct : ℚ
  management_fees_pct : ℚ
  performance_fees_pct : ℚ
deriving DecidableEq

/-- The simulation request, exactly as `schemas.py`'s
`ProductConfigRequest` declares it (`structure_type` and
`exit_window_frequency` are declared but never read by the handler; the
`user` auth context feeds only the unmodelled persistence step).  There is
no `commercial` field. -/
structure ProductConfigRequest where
  capital_raised_usd : ℚ
  structure_type : String
  product_tenor_months : ℕ
  exit_window_frequency : String
  yield_bucket : YieldBucketReq
  btc_holding_bucket : HoldingBucketReq
  mining_bucket : MiningBucketReq
  btc_price_curve_ids : ScenarioIds
  network_curve_ids : ScenarioIds
deriving DecidableEq

/-- The handler's failure channel: `HTTPException` with status 422 or 404
(detail strings with their interpolated numbers elided), or an uncaught
Python `AttributeError` (surfacing as a 500) from reading an attribute the
pydantic request model does not declare. -/
inductive HandlerError where
  | unprocessable : String → HandlerError
  | notFound : String → HandlerError
  | attributeError : String → HandlerError
deriving DecidableEq

/-- The scenario-keyed results dict the handler would return. -/
structure ScenarioResults where
  bear : SingleScenarioResult
  base : SingleScenarioResult
  bull : SingleScenarioResult

/-- Reading `req.commercial` (line 161 of the source): `schemas.py`'s
`ProductConfigRequest` declares no `commercial` field, and pydantic v2
(the code uses `model_dump`) raises `AttributeError` when an undeclared
attribute of a `BaseModel` is read, so this access always fails. -/
def read_req_commercial (_req : ProductConfigRequest) :
    Except HandlerError (Option CommercialReq) :=
  Except.error (.attributeError ("commercial"))

/-- Reading `req.btc_holding_bucket.capital_recon_pct` (line 179):
`BtcHoldingBucketConfig` declares no such field, so the read raises
`AttributeError`. -/
def read_holding_capital_recon_pct (_req : ProductConfigRequest) :
    Except HandlerError ℚ :=
  Except.error (.attributeError ("capital_recon_pct"))

/-- Reading `req.btc_holding_bucket.extra_yield_strikes` (line 180):
`BtcHoldingBucketConfig` declares no such field, so the read raises
`AttributeError`. -/
def read_holding_extra_yield_strikes (_req : ProductConfigRequest) :
    Except HandlerError (List ExtraYieldStrike) :=
  Except.error (.attributeError ("extra_yield_strikes"))

/-- Curve resolution for one scenario: missing ids give 422, missing
curves 404; when a curve is shared across all scenarios the stored
confidence band is applied. -/
def resolve_scenario_curves (db : Db) (scenario : String)
    (btc_id net_id : Option ℕ) (btc_same net_same : Bool) :
    Except HandlerError (List ℚ × List ℚ) :=
  match btc_id, net_id with
  | some bid, some nid =>
    match db.btcCurves bid with
    | none => Except.error (.notFound ("BTC curve not found"))
    | some btc_curve =>
      match db.netCurves nid with
      | none => Except.error (.notFound ("Network curve not found"))
      | some net_curve =>
        let prices :=
          if btc_same then
            apply_btc_band btc_curve.monthly_prices btc_curve scenario
          else btc_curve.monthly_prices
        let hps :=
          if net_same then
            apply_net_band net_curve.hashprice_btc_per_ph_day net_curve
              scenario
          else net_curve.hashprice_btc_per_ph_day
        Except.ok (prices, hps)
  | _, _ => Except.error (.unprocessable ("Missing scenario curve ID"))

/-- Embedding of `simulate_all_scenarios`: the orchestrator run on each of
the bear/base/bull curve pairs. -/
def simulate_all_scenarios (sp : SingleScenarioParams)
    (bearCurves baseCurves bullCurves : List ℚ × List ℚ) :
    ScenarioResults :=
  { bear := simulate_single_scenario sp bearCurves.1 bearCurves.2
    base := simulate_single_scenario sp baseCurves.1 baseCurves.2
    bull := simulate_single_scenario sp bullCurves.1 bullCurves.2 }

/-- The auto-computed holding target sell price of the handler: the price
at which selling the held BTC covers the holding and mining investments,
falling back to the buying price (this part reads only declared request
fields). -/
def request_target_sell_price (req : ProductConfigRequest) : ℚ :=
  match req.btc_holding_bucket.target_sell_price_usd with
  | some ts => ts
  | none =>
    if 0 < req.btc_holding_bucket.allocated_usd
        ∧ 0 < req.btc_holding_bucket.buying_price_usd then
      (req.btc_holding_bucket.allocated_usd
          + req.mining_bucket.allocated_usd)
        / (req.btc_holding_bucket.allocated_usd
            / req.btc_holding_bucket.buying_price_usd)
    else req.btc_holding_bucket.buying_price_usd

/-- The orchestrator parameters the handler would assemble from the
request, the looked-up miner and hosting site, and the values of the three
undeclared-attribute reads (which in fact never succeed; see
`simulate_product_body`). -/
def request_scenario_params (req : ProductConfigRequest) (miner : MinerRec)
    (site : HostingSiteRec) (target_sell_price : ℚ)
    (commercialCfg : Option CommercialReq) (capital_recon_pct : ℚ)
    (extra_strikes : List ExtraYieldStrike) : SingleScenarioParams :=
  { capital_raised_usd := req.capital_raised_usd
    tenor_months := req.product_tenor_months
    yield_allocated_usd := req.yield_bucket.allocated_usd
    yield_base_apr := req.yield_bucket.base_apr
    yield_apr_schedule := req.yield_bucket.apr_schedule
    holding_allocated_usd := req.btc_holding_bucket.allocated_usd
    holding_buying_price := req.btc_holding_bucket.buying_price_usd
    holding_target_sell_price := target_sell_price
    mining_allocated_usd := req.mining_bucket.allocated_usd
    miner_hashrate_th := miner.hashrate_th
    miner_power_w := miner.power_w
    miner_count := req.mining_bucket.miner_count
    miner_lifetime_months := miner.lifetime_months
    miner_maintenance_pct := miner.maintenance_pct
    electricity_rate := site.electricity_price_usd_per_kwh
    hosting_fee_per_kw_month := site.hosting_fee_usd_per_kw_month
    uptime := site.uptime_expectation
    curtailment_pct := site.curtailment_pct
    mining_base_yield_apr := req.mining_bucket.base_yield_apr
    mining_bonus_yield_apr := req.mining_bucket.bonus_yield_apr
    holding_capital_recon_pct := capital_recon_pct
    holding_extra_yield_strikes := some extra_strikes
    mining_take_profit_ladder := some req.mining_bucket.take_profit_ladder
    upfront_commercial_pct :=
      match commercialCfg with
      | some c => c.upfront_commercial_pct
      | none => 0
    management_fees_pct :=
      match commercialCfg with
      | some c => c.management_fees_pct
      | none => 0
    performance_fees_pct :=
      match commercialCfg with
      | some c => c.performance_fees_pct
      | none => 0 }

/-- The handler body that runs after the allocation validation, in source
order: per-scenario curve resolution (422/404 on missing ids or records),
miner and site lookup (404), target-price computation, and then — at line
161 of the source — the read of the undeclared `req.commercial`
attribute, which raises `AttributeError` before the
`simulate_all_scenarios` call is ever reached.  The continuation is kept
to mirror the source text (the further undeclared reads of lines 179-180
and the simulation call), but it is unreachable.  The persistence of the
run record is an external side effect and is not modelled. -/
def simulate_product_body (db : Db) (req : ProductConfigRequest) :
    Except HandlerError ScenarioResults :=
  let btc_same := decide (req.btc_price_curve_ids.bear
    = req.btc_price_curve_ids.base
    ∧ req.btc_price_curve_ids.base = req.btc_price_curve_ids.bull)
  let net_same := decide (req.network_curve_ids.bear
    = req.network_curve_ids.base
    ∧ req.network_curve_ids.base = req.network_curve_ids.bull)
  match resolve_scenario_curves db ("bear") req.btc_price_curve_ids.bear
      req.network_curve_ids.bear btc_same net_same with
  | Except.error e => Except.error e
  | Except.ok bearCurves =>
    match resolve_scenario_curves db ("base") req.btc_price_curve_ids.base
        req.network_curve_ids.base btc_same net_same with
    | Except.error e => Except.error e
    | Except.ok baseCurves =>
      match resolve_scenario_curves db ("bull") req.btc_price_curve_ids.bull
          req.network_curve_ids.bull btc_same net_same with
      | Except.error e => Except.error e
      | Except.ok bullCurves =>
        match db.miners req.mining_bucket.miner_id with
        | none => Except.error (.notFound ("Miner not found"))
        | some miner =>
          match db.sites req.mining_bucket.hosting_site_id with
          | none => Except.error (.notFound ("Hosting site not found"))
          | some site =>
            let target := request_target_sell_price req
            match read_req_commercial req with
            | Except.error e => Except.error e
            | Except.ok commercialCfg =>
              match read_holding_capital_recon_pct req with
              | Except.error e => Except.error e
              | Except.ok capital_recon_pct =>
                match read_holding_extra_yield_strikes req with
                | Except.error e => Except.error e
                | Except.ok extra_strikes =>
                  Except.ok (simulate_all_scenarios
                    (request_scenario_params req miner site target
                      commercialCfg capital_recon_pct extra_strikes)
                    bearCurves baseCurves bullCurves)

/-- Embedding of the `simulate_product` handler of `product_config.py`:
the bucket-allocation validation runs first and rejects with a 422 before
anything else; only then does the body run. -/
def simulate_product (db : Db) (req : ProductConfigRequest) :
    Except HandlerError ScenarioResults :=
  let bucket_total := req.yield_bucket.allocated_usd
    + req.btc_holding_bucket.allocated_usd
    + req.mining_bucket.allocated_usd
  if 1/100 < |bucket_total - req.capital_raised_usd| then
    Except.error (.unprocessable
      ("Bucket allocations must equal capital raised"))
  else simulate_product_body db req

/-- Truth of "both curve ids of one scenario are present and resolve". -/
def scenario_resolves (db : Db) (btc_id net_id : Option ℕ) : Bool :=
  match btc_id, net_id with
  | some bid, some nid =>
    (db.btcCurves bid).isSome && (db.netCurves nid).isSome
  | _, _ => false

/-- Truth of "every lookup the handler performs before line 161
succeeds": all six curve ids present and stored, and the miner and
hosting site found. -/
def request_resolves (db : Db) (req : ProductConfigRequest) : Bool :=
  scenario_resolves db req.btc_price_curve_ids.bear
      req.network_curve_ids.bear
    && scenario_resolves db req.btc_price_curve_ids.base
      req.network_curve_ids.base
    && scenario_resolves db req.btc_price_curve_ids.bull
      req.network_curve_ids.bull
    && (db.miners req.mining_bucket.miner_id).isSome
    && (db.sites req.mining_bucket.hosting_site_id).isSome

/-- C7 (code bug): the allocation check does run first — a request whose
bucket allocations differ from the capital raised by more than the 0.01
tolerance is rejected with the 422 validation error for every database
state, so no bucket simulation runs and nothing is truncated.  But a
within-tolerance request never reaches the simulation either: once every
lookup succeeds, the handler's read of the undeclared `req.commercial`
attribute (line 161; `schemas.py` declares no such field) raises
`AttributeError` before `simulate_all_scenarios` is called. -/
theorem allocation_validation_schema_gap (req : ProductConfigRequest) :
    ((1/100 : ℚ) < |req.yield_bucket.allocated_usd
        + req.btc_holding_bucket.allocated_usd
        + req.mining_bucket.allocated_usd - req.capital_raised_usd| →
      ∀ db : Db, simulate_product db req
        = Except.error (HandlerError.unprocessable
            ("Bucket allocations must equal capital raised")))
    ∧ (¬ ((1/100 : ℚ) < |req.yield_bucket.allocated_usd
        + req.btc_holding_bucket.allocated_usd
        + req.mining_bucket.allocated_usd - req.capital_raised_usd|) →
      ∀ db : Db, request_resolves db req = true →
        simulate_product db req
          = Except.error (HandlerError.attributeError ("commercial"))) := by
  constructor
  · intro h db
    unfold simulate_product
    rw [if_pos h]
  · intro h db hres
    unfold simulate_product
    rw [if_neg h]
    simp only [request_resolves, Bool.and_eq_true] at hres
    obtain ⟨⟨⟨⟨r1, r2⟩, r3⟩, rm⟩, rs⟩ := hres
    obtain ⟨m, hm⟩ := Option.isSome_iff_exists.mp rm
    obtain ⟨site, hsite⟩ := Option.isSome_iff_exists.mp rs
    cases hb1 : req.btc_price_curve_ids.bear with
    | none => rw [hb1] at r1; simp [scenario_resolves] at r1
    | some b1 =>
    cases hn1 : req.network_curve_ids.bear with
    | none => rw [hb1, hn1] at r1; simp [scenario_resolves] at r1
    | some n1 =>
    cases hb2 : req.btc_price_curve_ids.base with
    | none => rw [hb2] at r2; simp [scenario_resolves] at r2
    | some b2 =>
    cases hn2 : req.network_curve_ids.base with
    | none => rw [hb2, hn2] at r2; simp [scenario_resolves] at r2
    | some n2 =>
    cases hb3 : req.btc_price_curve_ids.bull with
    | none => rw [hb3] at r3; simp [scenario_resolves] at r3
    | some b3 =>
    cases hn3 : req.network_curve_ids.bull with
    | none => rw [hb3, hn3] at r3; simp [scenario_resolves] at r3
    | some n3 =>
    rw [hb1, hn1] at r1
    rw [hb2, hn2] at r2
    rw [hb3, hn3] at r3
    simp only [scenario_resolves, Bool.and_eq_true] at r1 r2 r3
    obtain ⟨bc1, hbc1⟩ := Option.isSome_iff_exists.mp r1.1
    obtain ⟨nc1, hnc1⟩ := Option.isSome_iff_exists.mp r1.2
    obtain ⟨bc2, hbc2⟩ := Option.isSome_iff_exists.mp r2.1
    obtain ⟨nc2, hnc2⟩ := Option.isSome_iff_exists.mp r2.2
    obtain ⟨bc3, hbc3⟩ := Option.isSome_iff_exists.mp r3.1
    obtain ⟨nc3, hnc3⟩ := Option.isSome_iff_exists.mp r3.2
    simp only [simulate_product_body, resolve_scenario_curves, hb1, hn1,
      hb2, hn2, hb3, hn3, hbc1, hnc1, hbc2, hnc2, hbc3, hnc3, hm, hsite,
      read_req_commercial]

/-- The database used by the C7 witness: one stored BTC curve, network
curve, miner and hosting site, all under key 0. -/
def stockedDb : Db :=
  { btcCurves := fun i =>
      if i = 0 then some { monthly_prices := [100], confidence_band_pct := 0 }
      else none
    netCurves := fun i =>
      if i = 0 then
        some { hashprice_btc_per_ph_day := [1], confidence_band_pct := 0 }
      else none
    miners := fun i =>
      if i = 0 then
        some { hashrate_th := 100, power_w := 3000, lifetime_months := 60,
               maintenance_pct := 0 }
      else none
    sites := fun i =>
      if i = 0 then
        some { electricity_price_usd_per_kwh := 0,
               hosting_fee_usd_per_kw_month := 0, uptime_expectation := 1,
               curtailment_pct := 0 }
      else none }

/-- A request whose allocations (1+1+1) do not sum to the capital (10). -/
def badAllocReq : ProductConfigRequest :=
  { capital_raised_usd := 10
    structure_type := "dedicated"
    product_tenor_months := 1
    exit_window_frequency := "quarterly"
    yield_bucket := { allocated_usd := 1, base_apr := 0, apr_schedule := none }
    btc_holding_bucket :=
      { allocated_usd := 1, buying_price_usd := 10,
        target_sell_price_usd := none }
    mining_bucket :=
      { allocated_usd := 1, miner_id := 0, hosting_site_id := 0,
        miner_count := 0, base_yield_apr := 0, bonus_yield_apr := 0,
        take_profit_ladder := [] }
    btc_price_curve_ids := { bear := some 0, base := some 0, bull := some 0 }
    network_curve_ids := { bear := some 0, base := some 0, bull := some 0 } }

/-- The same request with the capital corrected to 3 (allocations sum). -/
def goodAllocReq : ProductConfigRequest :=
  { badAllocReq with capital_raised_usd := 3 }

unseal Rat.mul Rat.add Rat.sub Rat.inv in
/-- Witness for C7 (code bug): on the mismatched request every database
state gets the 422 error, and on the matching request — with every lookup
succeeding in `stockedDb` — the handler dies on the undeclared
`commercial` attribute instead of simulating; the hypotheses are
discharged by evaluation. -/
theorem allocation_validation_schema_gap_witness :
    simulate_product stockedDb badAllocReq
      = Except.error (HandlerError.unprocessable
          ("Bucket allocations must equal capital raised"))
    ∧ simulate_product stockedDb goodAllocReq
      = Except.error (HandlerError.attributeError ("commercial")) :=
  ⟨(allocation_validation_schema_gap badAllocReq).1 (by decide) stockedDb,
   (allocation_validation_schema_gap goodAllocReq).2 (by decide) stockedDb
     (by decide)⟩
